import Mathlib

/-!
Verification of the report-assembly and issue-detection pipeline of the
SOS Report Analyzer (builders.py, utils.py, issue_checks.py, preproc-sos.py).

The embedding models Python strings as Lean `String`, the file system as an
explicit record of query functions (`FS`), Python exceptions as `Except`,
and Python's `datetime.now()` as an explicit `now : String` parameter.
Python string helpers (`str.split()`, `str.splitlines`, `str.strip`,
`"".join`, `os.path.join`, `os.path.basename`) are reimplemented for the
ASCII fragment the reports use.  Machine integers are `Nat`/`Int`; word
budgets are `Int` because `MAX_WORDS_PER_FILE - ...` can go negative in
Python.
-/

/-- ASCII whitespace as recognised by Python's `str.split()`. -/
def pyIsSpace (c : Char) : Bool :=
  c = ' ' || c = '\t' || c = '\n' || c = '\r' || c = '\x0b' || c = '\x0c'

/-- Worker for `str.split()` with no separator: split on whitespace runs,
dropping empty tokens.  `cur` holds the current in-progress word reversed. -/
def pySplitAux (cur : List Char) : List Char → List (List Char)
  | [] => if cur.isEmpty then [] else [cur.reverse]
  | c :: cs =>
    if pyIsSpace c then
      if cur.isEmpty then pySplitAux [] cs else cur.reverse :: pySplitAux [] cs
    else pySplitAux (c :: cur) cs

/-- Python `text.split()` (no separator). -/
def pySplitWhitespace (s : String) : List String :=
  (pySplitAux [] s.data).map String.mk

/-- Proof-side word counter: counts word starts; `inWord` says whether the
previous character was a non-space.  Equals `(pySplitAux ..).length`. -/
def countWordsAux : Bool → List Char → Nat
  | _, [] => 0
  | inWord, c :: cs =>
    if pyIsSpace c then countWordsAux false cs
    else (if inWord then 0 else 1) + countWordsAux true cs

/-- The in-word state after scanning a character list. -/
def wordState : Bool → List Char → Bool
  | b, [] => b
  | _, c :: cs => wordState (!pyIsSpace c) cs

/-- Characters Python's `str.splitlines` treats as line boundaries. -/
def isPyLineBreak (c : Char) : Bool :=
  c = '\n' || c = '\r' || c = '\x0b' || c = '\x0c' || c = '\x1c' ||
  c = '\x1d' || c = '\x1e' || c = '\x85' || c = '\u2028' || c = '\u2029'

/-- Worker for Python `str.splitlines(keepends)`: `\r\n` counts as one
boundary, `cur` holds the current line reversed. -/
def pySplitlinesAux (keep : Bool) (cur : List Char) : List Char → List (List Char)
  | [] => if cur.isEmpty then [] else [cur.reverse]
  | '\r' :: '\n' :: cs =>
    (cur.reverse ++ if keep then ['\r', '\n'] else []) :: pySplitlinesAux keep [] cs
  | c :: cs =>
    if isPyLineBreak c then
      (cur.reverse ++ if keep then [c] else []) :: pySplitlinesAux keep [] cs
    else pySplitlinesAux keep (c :: cur) cs

/-- Python `s.splitlines(keepends)`. -/
def pySplitlines (keep : Bool) (s : String) : List String :=
  (pySplitlinesAux keep [] s.data).map String.mk

/-- Worker for `file.readlines()` on text read in universal-newlines mode:
the decoded text has had `\r\n`/`\r` translated to `\n`, and lines are split
after each `\n`, keeping it. -/
def pyReadlinesAux (cur : List Char) : List Char → List (List Char)
  | [] => if cur.isEmpty then [] else [cur.reverse]
  | c :: cs =>
    if c = '\n' then (cur.reverse ++ ['\n']) :: pyReadlinesAux [] cs
    else pyReadlinesAux (c :: cur) cs

/-- `f.readlines()` of a decoded text. -/
def pyReadlines (s : String) : List String :=
  (pyReadlinesAux [] s.data).map String.mk

/-- Python `sep.join(items)`. -/
def pyJoin (sep : String) : List String → String
  | [] => ""
  | [x] => x
  | x :: y :: xs => x ++ sep ++ pyJoin sep (y :: xs)

/-- Python `"".join(items)`, as the source's `"".join(lines)`. -/
def pyConcat (items : List String) : String :=
  items.foldl (· ++ ·) ""

/-- Python `str.strip()` (ASCII whitespace). -/
def pyStrip (s : String) : String :=
  String.mk (((s.data.dropWhile pyIsSpace).reverse.dropWhile pyIsSpace).reverse)

/-- Python `str.lower()` (ASCII). -/
def pyLower (s : String) : String :=
  String.mk (s.data.map Char.toLower)

/-- `os.path.join a b` for the POSIX paths the analyzer builds. -/
def pyJoinPath (a b : String) : String :=
  if b.data.head? = some '/' then b
  else if a = "" || a.data.getLast? = some '/' then a ++ b
  else a ++ "/" ++ b

/-- `os.path.basename`: the part after the last slash. -/
def pyBasename (p : String) : String :=
  String.mk ((p.data.reverse.takeWhile (fun c => c ≠ '/')).reverse)

/-- Python `l[-n:]`: the last `n` elements when `n ≥ 1`; `-0` is `0`, so
`l[-0:]` is the whole list. -/
def pyLastN (n : Nat) (l : List String) : List String :=
  if n = 0 then l else l.drop (l.length - n)

/-- Substring test (`needle in hay` on Python strings). -/
def isSubstrOf (needle : List Char) : List Char → Bool
  | [] => needle.isEmpty
  | c :: t => needle.isPrefixOf (c :: t) || isSubstrOf needle t

/-- `needle in hay` for strings. -/
def pyContains (hay needle : String) : Bool :=
  isSubstrOf needle.data hay.data

/-- Python `hay.count(needle)`: non-overlapping occurrences, left to right. -/
def countOcc (needle : List Char) : List Char → Nat
  | [] => 0
  | c :: t =>
    if needle.isPrefixOf (c :: t) then 1 + countOcc needle (t.drop (needle.length - 1))
    else countOcc needle t
  termination_by l => l.length
  decreasing_by
    all_goals simp only [List.length_cons, List.length_drop]
    all_goals omega

/-- Index of the first occurrence of `needle` in `hay`, if any. -/
def firstSubPos (needle : List Char) : List Char → Option Nat
  | [] => if needle.isEmpty then some 0 else none
  | c :: t =>
    if needle.isPrefixOf (c :: t) then some 0
    else (firstSubPos needle t).map (· + 1)

/-- `a` occurs in `hay` strictly before the first occurrence of `b`. -/
def precedesIn (a b hay : List Char) : Bool :=
  match firstSubPos a hay, firstSubPos b hay with
  | some i, some j => decide (i < j)
  | _, _ => false

/-!  ## The file-system model

`read` is only consulted for paths where `isFile` holds; `.error e` models
`open`/`read` raising an exception with message `e`, `.ok text` the decoded
text (with `errors="replace"` and universal-newline translation already
applied).  `walk dir` lists the joined paths of all files below a directory,
as the `os.walk` loops produce them; `globMatches pat` lists `glob.glob`'s
matches for an absolute pattern. -/
structure FS where
  isFile : String → Bool
  isDir : String → Bool
  read : String → Except String String
  walk : String → List String
  globMatches : String → List String

/-- One record of `ISSUE_CHECKS` (issue_checks.py): `check` and `filter`
return `.error ()` when the Python callable would raise. -/
structure CheckDef where
  name : String
  source : String
  check : String → Except Unit Bool
  filter : Option (List String → Except Unit (List String)) := none
  filter_terms : Option String := none
  description : String

/-- One entry of the subject catalog, with `.get`-defaults applied
(`files`/`globs` default to `[]`, `max_lines` to the catalog's global
default). -/
structure SubjectDef where
  title : String
  description : String
  files : List String := []
  globs : List String := []
  max_lines : Option Nat := none

namespace Utils

/-- utils.py `TRUNCATION_NOTICE.format(n=maxLines)`. -/
def truncNotice (n : Nat) : String :=
  "\n... [TRUNCATED — showing last " ++ Nat.repr n ++ " lines] ...\n"

/-- utils.py `WORD_TRUNCATION_NOTICE.format(limit=maxWords, n=wordCount)`
(the template only uses `n`; `limit` is an ignored keyword). -/
def wordTruncNotice (n : Nat) : String :=
  "\n\n... [TRUNCATED — content exceeded word limit, showing last " ++
    Nat.repr n ++ " words] ...\n\n"

/-- utils.py `read_file_safe`. -/
def read_file_safe (fs : FS) (filepath : String) (maxLines : Nat) : Option String :=
  if fs.isFile filepath then
    match fs.read filepath with
    | .error e => some ("[ERROR reading file: " ++ e ++ "]")
    | .ok text =>
      let lines := pyReadlines text
      if lines.length > maxLines then
        some (truncNotice maxLines ++ pyConcat (pyLastN maxLines lines))
      else some (pyConcat lines)
  else none

/-- The paths one entry of `file_list` contributes to the `found` set. -/
def fileContrib (fs : FS) (sos_root relpath : String) : List String :=
  let full := pyJoinPath sos_root relpath
  if fs.isFile full then [full]
  else if fs.isDir full then fs.walk full
  else []

/-- The paths one glob pattern contributes to the `found` set. -/
def globContrib (fs : FS) (sos_root pattern : String) : List String :=
  (fs.globMatches (pyJoinPath sos_root pattern)).flatMap fun m =>
    if fs.isFile m then [m]
    else if fs.isDir m then fs.walk m
    else []

/-- `found.add` over a list of paths. -/
def addAll (s : Finset String) (l : List String) : Finset String :=
  l.foldl (fun acc p => insert p acc) s

/-- utils.py `resolve_paths`: accumulate a set, return it sorted. -/
def resolve_paths (fs : FS) (sos_root : String)
    (file_list glob_patterns : List String) : List String :=
  let s1 := file_list.foldl (fun acc rel => addAll acc (fileContrib fs sos_root rel)) ∅
  let s2 := glob_patterns.foldl (fun acc pat => addAll acc (globContrib fs sos_root pat)) s1
  s2.sort (· ≤ ·)

/-- utils.py `make_relative` (`os.path.relpath`), modelled for the paths the
resolver produces: every such path lies under `sos_root`. -/
def make_relative (path sos_root : String) : String :=
  if (sos_root ++ "/").data.isPrefixOf path.data then
    String.mk (path.data.drop (sos_root.data.length + 1))
  else path

/-- The dash-collapsing pass of `heading_anchor`:
`anchor.replace("--", "-")`, non-overlapping, left to right. -/
def replaceDD : List Char → List Char
  | '-' :: '-' :: rest => '-' :: replaceDD rest
  | c :: rest => c :: replaceDD rest
  | [] => []

/-- `"--" in anchor`. -/
def hasDD : List Char → Bool
  | '-' :: '-' :: _ => true
  | _ :: rest => hasDD rest
  | [] => false

/-- The `while "--" in anchor` loop, with fuel; each pass shortens the list,
so `length` fuel always suffices. -/
def collapseLoop : Nat → List Char → List Char
  | 0, l => l
  | f + 1, l => if hasDD l then collapseLoop f (replaceDD l) else l

/-- utils.py `heading_anchor`. -/
def heading_anchor (name : String) : String :=
  let a1 := (pyLower name).data.filter fun c => c.isAlphanum || c = ' ' || c = '-'
  let a2 := a1.map fun c => if c = ' ' then '-' else c
  let a3 := collapseLoop a2.length a2
  String.mk ((a3.dropWhile (· = '-')).reverse.dropWhile (· = '-') |>.reverse)

/-- utils.py `count_words`. -/
def count_words (text : String) : Nat :=
  (pySplitWhitespace text).length

/-- The `for line in reversed(lines)` loop of `truncate_to_word_limit`:
processes the reversed line list, returning the kept lines (still in
reversed order) and the accumulated word count. -/
def keepLinesFromEnd (maxWords : Int) : Nat → List String → List String × Nat
  | wordCount, [] => ([], wordCount)
  | wordCount, line :: rest =>
    let lineWords := count_words line
    if (wordCount + lineWords : Int) > maxWords then ([], wordCount)
    else
      let r := keepLinesFromEnd maxWords (wordCount + lineWords) rest
      (line :: r.1, r.2)

/-- utils.py `truncate_to_word_limit`.  `maxWords` is `Int` because callers
subtract overheads from the budget and Python's result may be negative. -/
def truncate_to_word_limit (content : String) (maxWords : Int) : String × Bool :=
  let totalWords := count_words content
  if (totalWords : Int) ≤ maxWords then (content, false)
  else
    let lines := pySplitlines true content
    let r := keepLinesFromEnd maxWords 0 lines.reverse
    let keptLines := r.1.reverse
    (wordTruncNotice r.2 ++ pyConcat keptLines, true)

end Utils

namespace Builders

/-- builders.py `MAX_WORDS_PER_FILE` (NotebookLM limit with safety margin). -/
def MAX_WORDS_PER_FILE : Nat := 499000

/-- The header block of `build_subject_md`. -/
def subjectHeader (now sos_root : String) (sd : SubjectDef) : String :=
  pyJoin "\n"
    ["# " ++ sd.title, "", "> " ++ sd.description, "",
     "> Generated: " ++ now,
     "> SOS Report: `" ++ pyBasename sos_root ++ "`", "", "---", ""]

/-- One iteration of the per-file loop of `build_subject_md`: the content
lines it appends, or `none` when the file is skipped (absent, or empty
after `strip`). -/
def subjectSection (fs : FS) (sos_root : String) (maxLines : Nat)
    (filepath : String) : Option (List String) :=
  match Utils.read_file_safe fs filepath maxLines with
  | none => none
  | some c0 =>
    let content := pyStrip c0
    if content = "" then none
    else
      some ["## " ++ Utils.make_relative filepath sos_root, "", "```", content, "```", ""]

/-- The kept per-file sections of `build_subject_md` (one list entry per
file counted in `files_found`). -/
def subjectKept (fs : FS) (defaultMaxLines : Nat) (sos_root : String)
    (sd : SubjectDef) : List (List String) :=
  (Utils.resolve_paths fs sos_root sd.files sd.globs).filterMap
    (subjectSection fs sos_root (sd.max_lines.getD defaultMaxLines))

/-- The footer of `build_subject_md` for `files_found = n`. -/
def subjectFooter (n : Nat) : String :=
  "\n---\n*Total files included: " ++ Nat.repr n ++ "*"

/-- `content_word_budget` of `build_subject_md`. -/
def subjectBudget (fs : FS) (now : String) (defaultMaxLines : Nat)
    (sos_root : String) (sd : SubjectDef) : Int :=
  (MAX_WORDS_PER_FILE : Int) -
    Utils.count_words (subjectHeader now sos_root sd) -
    Utils.count_words (subjectFooter (subjectKept fs defaultMaxLines sos_root sd).length) - 20

/-- builders.py `build_subject_md`.  `now` is `datetime.now().strftime(...)`,
`defaultMaxLines` the catalog's `DEFAULT_MAX_LINES`. -/
def build_subject_md (fs : FS) (now : String) (defaultMaxLines : Nat)
    (sos_root : String) (sd : SubjectDef) : String :=
  let header := subjectHeader now sos_root sd
  if Utils.resolve_paths fs sos_root sd.files sd.globs = [] then
    header ++ "*No matching files found in this sosreport.*"
  else
    let kept := subjectKept fs defaultMaxLines sos_root sd
    if kept = [] then
      header ++ "*No readable files with content found for this subject.*"
    else
      let content := pyJoin "\n" kept.flatten
      let footer := subjectFooter kept.length
      let budget := subjectBudget fs now defaultMaxLines sos_root sd
      let content2 :=
        if (Utils.count_words content : Int) > budget then
          (Utils.truncate_to_word_limit content budget).1
        else content
      header ++ content2 ++ footer

/-- The fixed list of quick-identity files of `build_issues_md`. -/
def quickFiles : List String :=
  ["etc/redhat-release", "sos_commands/kernel/uname_-a",
   "sos_commands/host/hostnamectl", "uptime"]

/-- The header lines one quick-identity file contributes
(`if content:` is Python truthiness: present and non-empty). -/
def quickIdentitySection (fs : FS) (sos_root qf : String) : Option (List String) :=
  match Utils.read_file_safe fs (pyJoinPath sos_root qf) 20 with
  | none => none
  | some c =>
    if c = "" then none
    else some ["**" ++ qf ++ ":**", "```\n" ++ pyStrip c ++ "\n```", ""]

/-- The header (title block plus System Identity section) of
`build_issues_md`. -/
def issuesHeader (fs : FS) (sos_root now : String) : String :=
  pyJoin "\n"
    (["# Issues Investigation Report", "",
      "> Automated scan of the sosreport for common problems and red flags.",
      "> Generated: " ++ now,
      "> SOS Report: `" ++ pyBasename sos_root ++ "`", "", "---", "",
      "## System Identity", ""] ++
     (quickFiles.filterMap (quickIdentitySection fs sos_root)).flatten ++
     ["---", ""])

/-- `triggered = check_def["check"](content)` under
`try ... except: triggered = False`. -/
def checkTriggered (c : CheckDef) (content : String) : Bool :=
  match c.check content with
  | .ok b => b
  | .error _ => false

/-- The display content of a triggered check in builders.py: `none` models
Python's `display_content = None` (filter defined, result empty). -/
def checkDisplay (c : CheckDef) (content : String) : Option String :=
  match c.filter with
  | none => some content
  | some f =>
    match f (pySplitlines false content) with
    | .error _ => some content
    | .ok filtered => if filtered ≠ [] then some (pyJoin "\n" filtered) else none

/-- The per-check loop of builders.py `build_issues_md`: the
`triggered_checks` and `clean_checks` accumulators. -/
def runChecks (fs : FS) (sos_root : String) (logMaxLines : Nat) :
    List CheckDef → List (CheckDef × Option String) × List String
  | [] => ([], [])
  | c :: rest =>
    let r := runChecks fs sos_root logMaxLines rest
    match Utils.read_file_safe fs (pyJoinPath sos_root c.source) logMaxLines with
    | none => r
    | some content =>
      if checkTriggered c content then ((c, checkDisplay c content) :: r.1, r.2)
      else (r.1, c.name :: r.2)

/-- One flagged-issue line of the summary. -/
def flaggedLine (c : CheckDef) : String :=
  "- [" ++ c.name ++ "](#" ++ Utils.heading_anchor c.name ++ ") — " ++ c.description

/-- The summary section of builders.py `build_issues_md`. -/
def issuesSummary (triggered : List (CheckDef × Option String))
    (clean : List String) : String :=
  pyJoin "\n"
    (["## Summary", "",
      "- **Issues flagged:** " ++ Nat.repr triggered.length,
      "- **Checks passed:** " ++ Nat.repr clean.length, ""] ++
     (if ! triggered.isEmpty then
        ["### Flagged Issues", ""] ++ triggered.map (fun p => flaggedLine p.1) ++ [""]
      else []) ++
     (if clean ≠ [] then
        ["### Clean Checks (no issues detected)", ""] ++ clean.map ("- " ++ ·) ++ [""]
      else []) ++
     ["---", ""])

/-- The detail lines of one triggered check in builders.py: a `none`
display renders the no-matching-lines notice. -/
def detailSection (p : CheckDef × Option String) : List String :=
  ["## " ++ p.1.name, "",
   "**Source:** `" ++ p.1.source ++ "`",
   "**What this means:** " ++ p.1.description, ""] ++
  (match p.2 with
   | none =>
     ["*Searched `" ++ p.1.source ++ "` for " ++
        p.1.filter_terms.getD "the specified patterns" ++ " — no matching lines found.*"]
   | some d => ["```", pyStrip d, "```"]) ++
  ["", "---", ""]

/-- The detail section (`main_content`) of builders.py `build_issues_md`. -/
def issuesDetails (triggered : List (CheckDef × Option String)) : String :=
  pyJoin "\n" (triggered.map detailSection).flatten

/-- The fixed next-steps footer of builders.py `build_issues_md`. -/
def issuesFooter : String :=
  pyJoin "\n"
    ["## Recommended Next Steps", "",
     "Use this file together with the subject-specific files to investigate flagged issues in detail. Upload all generated markdown files to NotebookLM or Gemini Gems and ask questions like:",
     "",
     "- \"What are the critical issues on this system?\"",
     "- \"Explain the SELinux denials and suggest fixes\"",
     "- \"Is the storage healthy? Any signs of disk failure?\"",
     "- \"Are there any security concerns based on the audit log?\"",
     "- \"What services are failing and why?\"",
     "- \"Compare this system config against RHEL best practices\"",
     ""]

/-- `content_word_budget` of builders.py `build_issues_md`. -/
def issuesBudget (fs : FS) (sos_root now : String) (logMaxLines : Nat)
    (checks : List CheckDef) : Int :=
  let r := runChecks fs sos_root logMaxLines checks
  (MAX_WORDS_PER_FILE : Int) -
    Utils.count_words (issuesHeader fs sos_root now) -
    Utils.count_words (issuesSummary r.1 r.2) -
    Utils.count_words issuesFooter - 20

/-- builders.py `build_issues_md`.  The source runs it on the static
registry `ISSUE_CHECKS` with the catalog's `LOG_MAX_LINES` line cap; both
are parameters here (`LOG_MAX_LINES` lives in the absent subjects.py). -/
def build_issues_md (fs : FS) (now : String) (logMaxLines : Nat)
    (checks : List CheckDef) (sos_root : String) : String :=
  let header := issuesHeader fs sos_root now
  let r := runChecks fs sos_root logMaxLines checks
  let summary := issuesSummary r.1 r.2
  let main0 := issuesDetails r.1
  let budget := issuesBudget fs sos_root now logMaxLines checks
  let main1 :=
    if (Utils.count_words main0 : Int) > budget then
      (Utils.truncate_to_word_limit main0 budget).1
    else main0
  header ++ summary ++ main1 ++ issuesFooter

end Builders

/-!  ## preproc-sos.py

The script defines its own copies of the helper functions and builders
(the module does not import utils.py or builders.py); they are embedded
separately so the two `build_subject_md` implementations can be compared. -/

namespace PreprocSOS

/-- preproc-sos.py `MAX_WORDS_PER_FILE`. -/
def MAX_WORDS_PER_FILE : Nat := 499000

/-- preproc-sos.py `TRUNCATION_NOTICE.format(n=maxLines)`. -/
def truncNotice (n : Nat) : String :=
  "\n... [TRUNCATED — showing last " ++ Nat.repr n ++ " lines] ...\n"

/-- preproc-sos.py `WORD_TRUNCATION_NOTICE.format(limit=maxWords, n=wordCount)`. -/
def wordTruncNotice (n : Nat) : String :=
  "\n\n... [TRUNCATED — content exceeded word limit, showing last " ++
    Nat.repr n ++ " words] ...\n\n"

/-- preproc-sos.py `read_file_safe` (same body as utils.py's; only the
unused default of `max_lines` differs). -/
def read_file_safe (fs : FS) (filepath : String) (maxLines : Nat) : Option String :=
  if fs.isFile filepath then
    match fs.read filepath with
    | .error e => some ("[ERROR reading file: " ++ e ++ "]")
    | .ok text =>
      let lines := pyReadlines text
      if lines.length > maxLines then
        some (truncNotice maxLines ++ pyConcat (pyLastN maxLines lines))
      else some (pyConcat lines)
  else none

/-- preproc-sos.py `resolve_paths` (same body as utils.py's). -/
def resolve_paths (fs : FS) (sos_root : String)
    (file_list glob_patterns : List String) : List String :=
  let s1 := file_list.foldl (fun acc rel => Utils.addAll acc (Utils.fileContrib fs sos_root rel)) ∅
  let s2 := glob_patterns.foldl (fun acc pat => Utils.addAll acc (Utils.globContrib fs sos_root pat)) s1
  s2.sort (· ≤ ·)

/-- preproc-sos.py `make_relative`. -/
def make_relative (path sos_root : String) : String :=
  Utils.make_relative path sos_root

/-- preproc-sos.py `count_words`. -/
def count_words (text : String) : Nat :=
  (pySplitWhitespace text).length

/-- The `for line in reversed(lines)` loop of preproc-sos.py
`truncate_to_word_limit`. -/
def keepLinesFromEnd (maxWords : Int) : Nat → List String → List String × Nat
  | wordCount, [] => ([], wordCount)
  | wordCount, line :: rest =>
    let lineWords := count_words line
    if (wordCount + lineWords : Int) > maxWords then ([], wordCount)
    else
      let r := keepLinesFromEnd maxWords (wordCount + lineWords) rest
      (line :: r.1, r.2)

/-- preproc-sos.py `truncate_to_word_limit` (same body as utils.py's). -/
def truncate_to_word_limit (content : String) (maxWords : Int) : String × Bool :=
  let totalWords := count_words content
  if (totalWords : Int) ≤ maxWords then (content, false)
  else
    let lines := pySplitlines true content
    let r := keepLinesFromEnd maxWords 0 lines.reverse
    let keptLines := r.1.reverse
    (wordTruncNotice r.2 ++ pyConcat keptLines, true)

/-- The header block of preproc-sos.py `build_subject_md`. -/
def subjectHeader (now sos_root : String) (sd : SubjectDef) : String :=
  pyJoin "\n"
    ["# " ++ sd.title, "", "> " ++ sd.description, "",
     "> Generated: " ++ now,
     "> SOS Report: `" ++ pyBasename sos_root ++ "`", "", "---", ""]

/-- One iteration of the per-file loop of preproc-sos.py `build_subject_md`. -/
def subjectSection (fs : FS) (sos_root : String) (maxLines : Nat)
    (filepath : String) : Option (List String) :=
  match read_file_safe fs filepath maxLines with
  | none => none
  | some c0 =>
    let content := pyStrip c0
    if content = "" then none
    else
      some ["## " ++ make_relative filepath sos_root, "", "```", content, "```", ""]

/-- The kept per-file sections of preproc-sos.py `build_subject_md`. -/
def subjectKept (fs : FS) (defaultMaxLines : Nat) (sos_root : String)
    (sd : SubjectDef) : List (List String) :=
  (resolve_paths fs sos_root sd.files sd.globs).filterMap
    (subjectSection fs sos_root (sd.max_lines.getD defaultMaxLines))

/-- The footer of preproc-sos.py `build_subject_md`. -/
def subjectFooter (n : Nat) : String :=
  "\n---\n*Total files included: " ++ Nat.repr n ++ "*"

/-- `content_word_budget` of preproc-sos.py `build_subject_md`. -/
def subjectBudget (fs : FS) (now : String) (defaultMaxLines : Nat)
    (sos_root : String) (sd : SubjectDef) : Int :=
  (MAX_WORDS_PER_FILE : Int) -
    count_words (subjectHeader now sos_root sd) -
    count_words (subjectFooter (subjectKept fs defaultMaxLines sos_root sd).length) - 20

/-- preproc-sos.py `build_subject_md` (textually identical to builders.py's). -/
def build_subject_md (fs : FS) (now : String) (defaultMaxLines : Nat)
    (sos_root : String) (sd : SubjectDef) : String :=
  let header := subjectHeader now sos_root sd
  if resolve_paths fs sos_root sd.files sd.globs = [] then
    header ++ "*No matching files found in this sosreport.*"
  else
    let kept := subjectKept fs defaultMaxLines sos_root sd
    if kept = [] then
      header ++ "*No readable files with content found for this subject.*"
    else
      let content := pyJoin "\n" kept.flatten
      let footer := subjectFooter kept.length
      let budget := subjectBudget fs now defaultMaxLines sos_root sd
      let content2 :=
        if (count_words content : Int) > budget then
          (truncate_to_word_limit content budget).1
        else content
      header ++ content2 ++ footer

/-- The header lines one quick-identity file contributes in preproc-sos.py
`build_issues_md`. -/
def quickIdentitySection (fs : FS) (sos_root qf : String) : Option (List String) :=
  match read_file_safe fs (pyJoinPath sos_root qf) 20 with
  | none => none
  | some c =>
    if c = "" then none
    else some ["**" ++ qf ++ ":**", "```\n" ++ pyStrip c ++ "\n```", ""]

/-- The header of preproc-sos.py `build_issues_md`. -/
def issuesHeader (fs : FS) (sos_root now : String) : String :=
  pyJoin "\n"
    (["# Issues Investigation Report", "",
      "> Automated scan of the sosreport for common problems and red flags.",
      "> Generated: " ++ now,
      "> SOS Report: `" ++ pyBasename sos_root ++ "`", "", "---", "",
      "## System Identity", ""] ++
     (Builders.quickFiles.filterMap (quickIdentitySection fs sos_root)).flatten ++
     ["---", ""])

/-- The display content of a triggered check in preproc-sos.py: an empty
filter result falls back to the full (read) content. -/
def checkDisplay (c : CheckDef) (content : String) : String :=
  match c.filter with
  | none => content
  | some f =>
    match f (pySplitlines false content) with
    | .error _ => content
    | .ok filtered => if filtered ≠ [] then pyJoin "\n" filtered else content

/-- The content lines one triggered check appends in preproc-sos.py. -/
def checkSection (c : CheckDef) (content : String) : List String :=
  ["## " ++ c.name, "",
   "**Source:** `" ++ c.source ++ "`",
   "**What this means:** " ++ c.description, "",
   "```", pyStrip (checkDisplay c content), "```", "", "---", ""]

/-- The per-check loop of preproc-sos.py `build_issues_md`: the rendered
sections of triggered checks and the `clean_checks` names. -/
def runChecks (fs : FS) (sos_root : String) (logMaxLines : Nat) :
    List CheckDef → List (List String) × List String
  | [] => ([], [])
  | c :: rest =>
    let r := runChecks fs sos_root logMaxLines rest
    match read_file_safe fs (pyJoinPath sos_root c.source) logMaxLines with
    | none => r
    | some content =>
      if Builders.checkTriggered c content then (checkSection c content :: r.1, r.2)
      else (r.1, c.name :: r.2)

/-- The footer (summary plus next steps) of preproc-sos.py
`build_issues_md`. -/
def issuesFooter (issues_found : Nat) (clean : List String) : String :=
  pyJoin "\n"
    (["## Summary", "",
      "- **Issues flagged:** " ++ Nat.repr issues_found,
      "- **Checks passed:** " ++ Nat.repr clean.length, ""] ++
     (if clean ≠ [] then
        ["### Clean Checks (no issues detected)", ""] ++ clean.map ("- " ++ ·) ++ [""]
      else []) ++
     ["---", "",
      "## Recommended Next Steps", "",
      "Use this file together with the subject-specific files to investigate flagged issues in detail. Upload all generated markdown files to NotebookLM or Gemini Gems and ask questions like:",
      "",
      "- \"What are the critical issues on this system?\"",
      "- \"Explain the SELinux denials and suggest fixes\"",
      "- \"Is the storage healthy? Any signs of disk failure?\"",
      "- \"Are there any security concerns based on the audit log?\"",
      "- \"What services are failing and why?\"",
      "- \"Compare this system config against RHEL best practices\"",
      ""])

/-- The detail section (`main_content`) of preproc-sos.py `build_issues_md`. -/
def issuesDetails (sections : List (List String)) : String :=
  pyJoin "\n" sections.flatten

/-- `content_word_budget` of preproc-sos.py `build_issues_md`. -/
def issuesBudget (fs : FS) (sos_root now : String) (logMaxLines : Nat)
    (checks : List CheckDef) : Int :=
  let r := runChecks fs sos_root logMaxLines checks
  (MAX_WORDS_PER_FILE : Int) -
    count_words (issuesHeader fs sos_root now) -
    count_words (issuesFooter r.1.length r.2) - 20

/-- preproc-sos.py `build_issues_md`: the summary lives inside the footer,
after the detail sections. -/
def build_issues_md (fs : FS) (now : String) (logMaxLines : Nat)
    (checks : List CheckDef) (sos_root : String) : String :=
  let header := issuesHeader fs sos_root now
  let r := runChecks fs sos_root logMaxLines checks
  let main0 := issuesDetails r.1
  let footer := issuesFooter r.1.length r.2
  let budget := issuesBudget fs sos_root now logMaxLines checks
  let main1 :=
    if (count_words main0 : Int) > budget then
      (truncate_to_word_limit main0 budget).1
    else main0
  header ++ main1 ++ footer

end PreprocSOS

namespace IssueChecks

/-- `any(kw in content.lower() for kw in kws)`. -/
def anyKw (kws : List String) (content : String) : Bool :=
  kws.any fun k => pyContains (pyLower content) k

/-- Python `l[-n:]` as the registry's filters use it. -/
def lastN (n : Nat) (l : List String) : List String :=
  pyLastN n l

/-- Does `(9\d|100)%` match at the head of the list? -/
def matchNinetyAt : List Char → Bool
  | '9' :: d :: '%' :: _ => d.isDigit
  | '1' :: '0' :: '0' :: '%' :: _ => true
  | _ => false

/-- `re.search(r'(9\d|100)%', l)` as a boolean. -/
def hasNinetyPct : List Char → Bool
  | [] => false
  | c :: t => matchNinetyAt (c :: t) || hasNinetyPct t

/-- Worker for `re.findall(r'(\\d+)%', content)` with fuel (each step
consumes at least one character, so `length` fuel never runs out). -/
def findallDigitsPctAux : Nat → List Char → List (List Char)
  | 0, _ => []
  | _, [] => []
  | fuel + 1, c :: t =>
    if c.isDigit then
      let run := (c :: t).takeWhile Char.isDigit
      match t.dropWhile Char.isDigit with
      | '%' :: r2 => run :: findallDigitsPctAux fuel r2
      | rest => findallDigitsPctAux fuel rest
    else findallDigitsPctAux fuel t

/-- `re.findall(r'(\\d+)%', content)`: the maximal digit runs immediately
followed by `%` (the regex engine skips a run whose end is not `%`:
backtracking inside the run still meets a digit, not `%`). -/
def findallDigitsPct (l : List Char) : List (List Char) :=
  findallDigitsPctAux l.length l

/-- Python `int(m)` on a digit string. -/
def parseNat (m : List Char) : Nat :=
  m.foldl (fun a c => 10 * a + (c.toNat - 48)) 0

/-- `m.isdigit()`. -/
def allDigits (m : List Char) : Bool :=
  ! m.isEmpty && m.all Char.isDigit

/-- Check 1 of issue_checks.py. -/
def checkFailedUnits : CheckDef :=
  { name := "Failed Systemd Units",
    source := "sos_commands/systemd/systemctl_list-units_--failed",
    check := fun content => .ok
      (! (pyStrip content = "") && ! pyContains content "0 loaded units listed"),
    description := "Services that have failed and may need attention." }

/-- Check 2 of issue_checks.py. -/
def checkSelinuxAvc : CheckDef :=
  { name := "SELinux Denials in Audit Log",
    source := "var/log/audit/audit.log",
    check := fun content => .ok
      (pyContains (pyLower content) "denied" || pyContains (pyLower content) "avc:"),
    filter := some fun lines => .ok
      (lastN 200 (lines.filter fun l =>
        pyContains (pyLower l) "denied" || pyContains (pyLower l) "avc:")),
    filter_terms := some "lines containing 'denied' or 'avc:'",
    description := "SELinux AVC denials that may indicate policy issues." }

/-- Check 3 of issue_checks.py. -/
def checkOomKiller : CheckDef :=
  { name := "OOM Killer Events",
    source := "var/log/messages",
    check := fun content => .ok
      (pyContains (pyLower content) "out of memory" ||
       pyContains (pyLower content) "oom-killer"),
    filter := some fun lines => .ok
      (lastN 100 (lines.filter fun l => pyContains (pyLower l) "oom")),
    filter_terms := some "lines containing 'oom'",
    description := "Out-of-memory killer invocations — system ran out of RAM." }

/-- Check 4 of issue_checks.py. -/
def checkDmesgErrors : CheckDef :=
  { name := "Kernel Errors / Panics / Oops in dmesg",
    source := "sos_commands/kernel/dmesg",
    check := fun content => .ok
      (anyKw ["error", "panic", "oops", "bug:", "call trace"] content),
    filter := some fun lines => .ok
      (lastN 200 (lines.filter fun l =>
        anyKw ["error", "panic", "oops", "bug:", "call trace", "warning"] l)),
    filter_terms := some
      "lines containing 'error', 'panic', 'oops', 'bug:', 'call trace', or 'warning'",
    description := "Kernel-level errors, panics, or warnings from dmesg." }

/-- Check 5 of issue_checks.py. -/
def checkFsErrors : CheckDef :=
  { name := "Filesystem Errors in Logs",
    source := "var/log/messages",
    check := fun content => .ok
      (anyKw ["ext4-fs error", "xfs error", "i/o error", "buffer i/o error",
              "filesystem error", "remount,ro"] content),
    filter := some fun lines => .ok
      (lastN 100 (lines.filter fun l =>
        anyKw ["ext4", "xfs error", "i/o error", "buffer i/o",
               "filesystem error", "readonly"] l)),
    filter_terms := some
      "lines containing 'ext4', 'xfs error', 'i/o error', 'buffer i/o', 'filesystem error', or 'readonly'",
    description := "Filesystem errors that could indicate disk problems." }

/-- Check 6 of issue_checks.py. -/
def checkDiskSpace : CheckDef :=
  { name := "Disk Space Issues",
    source := "sos_commands/filesys/df_-al",
    check := fun content => .ok
      (((findallDigitsPct content.data).filter allDigits).any fun m => 90 ≤ parseNat m),
    filter := some fun lines =>
      match lines with
      | [] => .error ()
      | l0 :: rest => .ok (l0 :: rest.filter fun l => hasNinetyPct l.data),
    filter_terms := some "lines showing 90–100% disk usage",
    description := "Filesystems at or above 90% usage." }

/-- Check 7 of issue_checks.py. -/
def checkNetworkStats : CheckDef :=
  { name := "Network Errors / Drops",
    source := "sos_commands/networking/ip_-s_link",
    check := fun _ => .ok true,
    description := "Network interface statistics — check for RX/TX errors and drops." }

/-- Check 8 of issue_checks.py. -/
def checkMultipath : CheckDef :=
  { name := "Multipath Issues",
    source := "sos_commands/multipath/multipath_-ll",
    check := fun content => .ok (anyKw ["faulty", "failed", "shaky", "ghost"] content),
    description := "Multipath paths that are not in active/ready state." }

/-- Check 9 of issue_checks.py. -/
def checkSegfaults : CheckDef :=
  { name := "Core Dumps / Segfaults in Logs",
    source := "var/log/messages",
    check := fun content => .ok (anyKw ["segfault", "core dump", "trapping"] content),
    filter := some fun lines => .ok
      (lastN 100 (lines.filter fun l => anyKw ["segfault", "core dump", "trapping"] l)),
    filter_terms := some "lines containing 'segfault', 'core dump', or 'trapping'",
    description := "Application crashes recorded in system logs." }

/-- Check 10 of issue_checks.py. -/
def checkSubscription : CheckDef :=
  { name := "Subscription / Entitlement Warnings",
    source := "sos_commands/subscription_manager/subscription-manager_status",
    check := fun content => .ok
      (pyContains (pyLower content) "invalid" ||
       pyContains (pyLower content) "not registered" ||
       pyContains (pyLower content) "warning"),
    description := "Subscription manager reporting issues with entitlements." }

/-- Check 11 of issue_checks.py. -/
def checkNtpSync : CheckDef :=
  { name := "NTP / Time Sync Issues",
    source := "sos_commands/date/timedatectl",
    check := fun content => .ok
      (pyContains (pyLower content) "no" && pyContains (pyLower content) "synchronized"),
    description := "System clock is not synchronized — could cause auth and log issues." }

/-- Check 12 of issue_checks.py. -/
def checkKdump : CheckDef :=
  { name := "Kdump / Crash Configuration",
    source := "etc/kdump.conf",
    check := fun _ => .ok true,
    description := "Kdump configuration — verify crash dump settings." }

/-- Check 13 of issue_checks.py. -/
def checkZombies : CheckDef :=
  { name := "High Zombie / Defunct Processes",
    source := "sos_commands/process/ps_auxwww",
    check := fun content => .ok
      (decide (5 < countOcc "defunct".data (pyLower content).data) ||
       decide (5 < countOcc "<zombie>".data (pyLower content).data)),
    filter := some fun lines => .ok
      ((lines.filter fun l =>
         pyContains (pyLower l) "defunct" || pyContains (pyLower l) "zombie").take 100),
    filter_terms := some "lines containing 'defunct' or 'zombie'",
    description := "Large number of zombie/defunct processes detected." }

/-- Check 14 of issue_checks.py. -/
def checkHardware : CheckDef :=
  { name := "Hardware Errors (MCE)",
    source := "sos_commands/hardware/dmidecode",
    check := fun _ => .ok true,
    description := "DMI/BIOS data — review for hardware alerts." }

/-- Check 15 of issue_checks.py. -/
def checkSwap : CheckDef :=
  { name := "Swap Usage",
    source := "sos_commands/memory/free_-m",
    check := fun _ => .ok true,
    description := "Memory and swap usage — high swap may indicate memory pressure." }

/-- Check 16 of issue_checks.py. -/
def checkAuthFailures : CheckDef :=
  { name := "Authentication Failures",
    source := "var/log/secure",
    check := fun content => .ok
      (pyContains (pyLower content) "failed" ||
       pyContains (pyLower content) "invalid user"),
    filter := some fun lines => .ok
      (lastN 200 (lines.filter fun l =>
        pyContains (pyLower l) "failed" || pyContains (pyLower l) "invalid user")),
    filter_terms := some "lines containing 'failed' or 'invalid user'",
    description := "Failed authentication attempts — potential security concern." }

/-- issue_checks.py `ISSUE_CHECKS`: the static check registry, in file
order. -/
def ISSUE_CHECKS : List CheckDef :=
  [checkFailedUnits, checkSelinuxAvc, checkOomKiller, checkDmesgErrors,
   checkFsErrors, checkDiskSpace, checkNetworkStats, checkMultipath,
   checkSegfaults, checkSubscription, checkNtpSync, checkKdump,
   checkZombies, checkHardware, checkSwap, checkAuthFailures]

end IssueChecks

/-!  ## Concrete snapshots used by counterexamples and witnesses -/

/-- A file system with no files at all. -/
def fsEmpty : FS :=
  { isFile := fun _ => false, isDir := fun _ => false,
    read := fun _ => .error "absent", walk := fun _ => [],
    globMatches := fun _ => [] }

/-- A file system holding exactly one readable regular file. -/
def singleFileFS (path content : String) : FS :=
  { isFile := fun p => p = path, isDir := fun _ => false,
    read := fun p => if p = path then .ok content else .error "absent",
    walk := fun _ => [], globMatches := fun _ => [] }

/-- A file system holding exactly one regular file whose read raises. -/
def unreadableFileFS (path msg : String) : FS :=
  { isFile := fun p => p = path, isDir := fun _ => false,
    read := fun _ => .error msg, walk := fun _ => [], globMatches := fun _ => [] }

/-- `'a' :: ' ' :: ...` repeated: a title of `n` one-letter words. -/
def repAB : Nat → List Char
  | 0 => []
  | n + 1 => 'a' :: ' ' :: repAB n

/-- A subject whose title alone holds 500001 words. -/
def bigTitleSubject : SubjectDef :=
  { title := String.mk (repAB 500001), description := "d" }

/-- A small subject for the witnesses. -/
def smallSubject : SubjectDef :=
  { title := "Networking", description := "Network configuration",
    files := ["etc/hosts"] }

/-- Snapshot for the error-read counterexample: the failed-units source
exists but reading it raises `Permission denied`. -/
def fsPermDenied : FS :=
  unreadableFileFS "sosroot/sos_commands/systemd/systemctl_list-units_--failed"
    "Permission denied"

/-- Snapshot whose messages log triggers the OOM check while its filter
(lines containing `oom`) matches nothing. -/
def fsOomNoMatch : FS :=
  singleFileFS "sosroot/var/log/messages" "Out of memory: kill process 123\n"

/-- Snapshot with one failed systemd unit (triggers the first check). -/
def fsFailedUnit : FS :=
  singleFileFS "sosroot/sos_commands/systemd/systemctl_list-units_--failed"
    "foo.service loaded failed failed Foo\n"

/-- Snapshot for the resolver witness: two plain files, one directory with
one file below it, and a glob matching a file and the directory. -/
def fsResolver : FS :=
  { isFile := fun p => p = "root/a" || p = "root/b" || p = "root/d/x",
    isDir := fun p => p = "root/d",
    read := fun _ => .ok "",
    walk := fun p => if p = "root/d" then ["root/d/x"] else [],
    globMatches := fun p => if p = "root/*" then ["root/a", "root/d"] else [] }

/-- A check whose predicate always raises, for the fault-isolation witness. -/
def raisingCheck : CheckDef :=
  { name := "Raising Check", source := "etc/some.conf",
    check := fun _ => .error (), description := "A check whose predicate raises." }

/-!  ## Word-count lemmas -/

theorem pySplitAux_length (l : List Char) : ∀ cur,
    (pySplitAux cur l).length =
      (if cur.isEmpty then 0 else 1) + countWordsAux (!cur.isEmpty) l := by
  induction l with
  | nil =>
    intro cur
    cases cur <;> simp [pySplitAux, countWordsAux]
  | cons c cs ih =>
    intro cur
    by_cases hc : pyIsSpace c
    · cases cur <;> simp [pySplitAux, countWordsAux, hc, ih] <;> omega
    · cases cur <;> simp [pySplitAux, countWordsAux, hc, ih]

theorem count_words_eq_aux (s : String) :
    Utils.count_words s = countWordsAux false s.data := by
  simp [Utils.count_words, pySplitWhitespace, pySplitAux_length]

theorem countWordsAux_append (xs : List Char) : ∀ b ys,
    countWordsAux b (xs ++ ys) = countWordsAux b xs + countWordsAux (wordState b xs) ys := by
  induction xs with
  | nil => intro b ys; simp [countWordsAux, wordState]
  | cons c cs ih =>
    intro b ys
    by_cases hc : pyIsSpace c <;>
      simp [countWordsAux, wordState, hc, ih, Nat.add_assoc]

theorem countWordsAux_true_le (l : List Char) :
    countWordsAux true l ≤ countWordsAux false l := by
  induction l with
  | nil => simp [countWordsAux]
  | cons c cs ih =>
    by_cases hc : pyIsSpace c <;> simp [countWordsAux, hc]

theorem countWordsAux_le_false (b : Bool) (l : List Char) :
    countWordsAux b l ≤ countWordsAux false l := by
  cases b
  · exact Nat.le_refl _
  · exact countWordsAux_true_le l

theorem countWordsAux_true_le_any (b : Bool) (l : List Char) :
    countWordsAux true l ≤ countWordsAux b l := by
  cases b
  · exact countWordsAux_true_le l
  · exact Nat.le_refl _

theorem countWordsAux_append_le (b : Bool) (xs ys : List Char) :
    countWordsAux b (xs ++ ys) ≤ countWordsAux b xs + countWordsAux false ys := by
  rw [countWordsAux_append]
  exact Nat.add_le_add_left (countWordsAux_le_false _ _) _

theorem count_words_append_le (a b : String) :
    Utils.count_words (a ++ b) ≤ Utils.count_words a + Utils.count_words b := by
  simp only [count_words_eq_aux, String.data_append]
  exact countWordsAux_append_le _ _ _

theorem countWordsAux_infix_ge (b : Bool) (xs ys zs : List Char) :
    countWordsAux true ys ≤ countWordsAux b (xs ++ ys ++ zs) := by
  rw [List.append_assoc, countWordsAux_append, countWordsAux_append]
  calc countWordsAux true ys ≤ countWordsAux (wordState b xs) ys :=
        countWordsAux_true_le_any _ _
    _ ≤ _ := by omega

theorem countWordsAux_nospace_true (l : List Char)
    (h : ∀ c ∈ l, pyIsSpace c = false) : countWordsAux true l = 0 := by
  induction l with
  | nil => simp [countWordsAux]
  | cons c cs ih =>
    have hc := h c (by simp)
    simp only [countWordsAux, hc, Bool.false_eq_true, if_false, if_true]
    simpa using ih fun d hd => h d (by simp [hd])

theorem countWordsAux_nospace_false (l : List Char)
    (h : ∀ c ∈ l, pyIsSpace c = false) : countWordsAux false l ≤ 1 := by
  cases l with
  | nil => simp [countWordsAux]
  | cons c cs =>
    have hc := h c (by simp)
    simp only [countWordsAux, hc, Bool.false_eq_true, if_false]
    have := countWordsAux_nospace_true cs fun d hd => h d (by simp [hd])
    omega

/-!  ## Decimal-numeral lemmas: `Nat.repr` contains no whitespace -/

theorem digitChar_nospace (d : Nat) : pyIsSpace (Nat.digitChar d) = false := by
  match d with
  | 0 | 1 | 2 | 3 | 4 | 5 | 6 | 7 | 8 | 9 | 10 | 11 | 12 | 13 | 14 | 15 => rfl
  | n + 16 => rfl

theorem toDigitsCore_mem (b : Nat) : ∀ (fuel n : Nat) (ds : List Char),
    ∀ c ∈ Nat.toDigitsCore b fuel n ds, c ∈ ds ∨ ∃ d, c = Nat.digitChar d := by
  intro fuel
  induction fuel with
  | zero => intro n ds c hc; exact Or.inl hc
  | succ f ih =>
    intro n ds c hc
    simp only [Nat.toDigitsCore] at hc
    split at hc
    · rcases List.mem_cons.mp hc with h | h
      · exact Or.inr ⟨n % b, h⟩
      · exact Or.inl h
    · rcases ih _ _ _ hc with h | h
      · rcases List.mem_cons.mp h with h2 | h2
        · exact Or.inr ⟨n % b, h2⟩
        · exact Or.inl h2
      · exact Or.inr h

theorem repr_nospace (n : Nat) : ∀ c ∈ (Nat.repr n).data, pyIsSpace c = false := by
  intro c hc
  have : c ∈ Nat.toDigits 10 n := hc
  rcases toDigitsCore_mem 10 (n + 1) n [] c this with h | ⟨d, hd⟩
  · simp at h
  · rw [hd]; exact digitChar_nospace d

theorem cw_repr_false (n : Nat) : countWordsAux false (Nat.repr n).data ≤ 1 :=
  countWordsAux_nospace_false _ (repr_nospace n)

theorem cw_repr_true (n : Nat) : countWordsAux true (Nat.repr n).data = 0 :=
  countWordsAux_nospace_true _ (repr_nospace n)

/-- The word-truncation notice always counts at most 12 words. -/
theorem wordTruncNotice_words_le (n : Nat) :
    Utils.count_words (Utils.wordTruncNotice n) ≤ 12 := by
  rw [count_words_eq_aux]
  unfold Utils.wordTruncNotice
  rw [String.data_append, String.data_append]
  calc countWordsAux false
        ("\n\n... [TRUNCATED — content exceeded word limit, showing last ".data ++
          ((Nat.repr n).data ++ " words] ...\n\n".data))
      ≤ countWordsAux false
          "\n\n... [TRUNCATED — content exceeded word limit, showing last ".data +
          countWordsAux false ((Nat.repr n).data ++ " words] ...\n\n".data) :=
        countWordsAux_append_le _ _ _
    _ ≤ countWordsAux false
          "\n\n... [TRUNCATED — content exceeded word limit, showing last ".data +
          (countWordsAux false (Nat.repr n).data +
            countWordsAux false " words] ...\n\n".data) :=
        Nat.add_le_add_left (countWordsAux_append_le _ _ _) _
    _ ≤ 9 + (1 + 2) := by
        have h1 : countWordsAux false
            "\n\n... [TRUNCATED — content exceeded word limit, showing last ".data = 9 := by
          decide
        have h2 : countWordsAux false " words] ...\n\n".data = 2 := by decide
        have h3 := cw_repr_false n
        omega
    _ ≤ 12 := by omega

/-- The subject footer always counts at most 5 words. -/
theorem subjectFooter_words_le (n : Nat) :
    Utils.count_words (Builders.subjectFooter n) ≤ 5 := by
  rw [count_words_eq_aux]
  unfold Builders.subjectFooter
  rw [String.data_append, String.data_append]
  have h1 : countWordsAux false "\n---\n*Total files included: ".data = 4 := by decide
  have h2 : countWordsAux false ((Nat.repr n).data ++ "*".data) ≤ 1 := by
    apply countWordsAux_nospace_false
    intro c hc
    rcases List.mem_append.mp hc with h | h
    · exact repr_nospace n c h
    · simp at h; rw [h]; rfl
  calc countWordsAux false
        ("\n---\n*Total files included: ".data ++ ((Nat.repr n).data ++ "*".data))
      ≤ 4 + countWordsAux false ((Nat.repr n).data ++ "*".data) := by
        have := countWordsAux_append_le false "\n---\n*Total files included: ".data
          ((Nat.repr n).data ++ "*".data)
        omega
    _ ≤ 5 := by omega

/-!  ## Concatenation lemmas -/

theorem foldl_append_data (ls : List String) : ∀ a : String,
    (ls.foldl (· ++ ·) a).data = a.data ++ (ls.map String.data).flatten := by
  induction ls with
  | nil => intro a; simp
  | cons x xs ih =>
    intro a
    simp only [List.foldl_cons, List.map_cons, List.flatten_cons, ih,
      String.data_append, List.append_assoc]

theorem pyConcat_data (ls : List String) :
    (pyConcat ls).data = (ls.map String.data).flatten := by
  simp [pyConcat, foldl_append_data]

theorem cw_flatten_le (lss : List (List Char)) :
    countWordsAux false lss.flatten ≤ (lss.map (countWordsAux false)).sum := by
  induction lss with
  | nil => simp [countWordsAux]
  | cons x xs ih =>
    simp only [List.flatten_cons, List.map_cons, List.sum_cons]
    calc countWordsAux false (x ++ xs.flatten)
        ≤ countWordsAux false x + countWordsAux false xs.flatten :=
          countWordsAux_append_le _ _ _
      _ ≤ _ := by omega

theorem count_words_pyConcat_le (ls : List String) :
    Utils.count_words (pyConcat ls) ≤ (ls.map Utils.count_words).sum := by
  rw [count_words_eq_aux, pyConcat_data]
  calc countWordsAux false (ls.map String.data).flatten
      ≤ ((ls.map String.data).map (countWordsAux false)).sum := cw_flatten_le _
    _ = (ls.map Utils.count_words).sum := by
        rw [List.map_map]
        induction ls with
        | nil => simp
        | cons x xs ih => simp_all [count_words_eq_aux]

/-!  ## Truncation-loop lemmas -/

theorem keepLinesFromEnd_spec (m : Int) (ls : List String) : ∀ wc : Nat,
    (Utils.keepLinesFromEnd m wc ls).2 =
        wc + ((Utils.keepLinesFromEnd m wc ls).1.map Utils.count_words).sum ∧
    (Utils.keepLinesFromEnd m wc ls).1 <+: ls ∧
    ((wc : Int) ≤ m → ((Utils.keepLinesFromEnd m wc ls).2 : Int) ≤ m) := by
  induction ls with
  | nil =>
    intro wc
    refine ⟨by simp [Utils.keepLinesFromEnd], by simp [Utils.keepLinesFromEnd], ?_⟩
    intro h
    simpa [Utils.keepLinesFromEnd] using h
  | cons line rest ih =>
    intro wc
    simp only [Utils.keepLinesFromEnd]
    split
    · exact ⟨by simp, List.nil_prefix, fun h => h⟩
    · rename_i hle
      obtain ⟨h1, h2, h3⟩ := ih (wc + Utils.count_words line)
      refine ⟨?_, ?_, ?_⟩
      · simp only [h1, List.map_cons, List.sum_cons]
        omega
      · obtain ⟨t, ht⟩ := h2
        exact ⟨t, by simp [ht]⟩
      · intro _
        apply h3
        push_cast
        omega

theorem keepLinesFromEnd_nil_of_neg (m : Int) (hm : m < 0) (ls : List String) :
    Utils.keepLinesFromEnd m 0 ls = ([], 0) := by
  cases ls with
  | nil => rfl
  | cons line rest =>
    simp only [Utils.keepLinesFromEnd]
    rw [if_pos]
    push_cast
    omega

/-- Structure of a truncated result: the notice, then a tail of the input's
lines whose accumulated word count respects the (nonnegative part of the)
limit. -/
theorem truncate_true_struct (content : String) (m : Int)
    (h : (Utils.count_words content : Int) > m) :
    ∃ tl, tl <:+ pySplitlines true content ∧
      Utils.truncate_to_word_limit content m =
        (Utils.wordTruncNotice ((tl.map Utils.count_words).sum) ++ pyConcat tl, true) ∧
      ((tl.map Utils.count_words).sum : Int) ≤ max m 0 := by
  have hnle : ¬ ((Utils.count_words content : Int) ≤ m) := by omega
  simp only [Utils.truncate_to_word_limit, if_neg hnle]
  set lines := pySplitlines true content with hlines
  obtain ⟨h1, h2, h3⟩ := keepLinesFromEnd_spec m lines.reverse 0
  set r := Utils.keepLinesFromEnd m 0 lines.reverse with hr
  refine ⟨r.1.reverse, ?_, ?_, ?_⟩
  · have := h2.reverse
    rwa [List.reverse_reverse] at this
  · have hsum : ((r.1.reverse.map Utils.count_words).sum) = r.2 := by
      rw [List.map_reverse, List.sum_reverse]
      omega
    rw [hsum]
  · rcases le_or_lt 0 m with hm | hm
    · have := h3 (by exact_mod_cast hm)
      rw [List.map_reverse, List.sum_reverse]
      omega
    · rw [keepLinesFromEnd_nil_of_neg m hm] at hr
      simp [hr]

/-- A truncated result counts at most `limit + 12` words: the kept tail
within the limit plus the notice. -/
theorem truncate_true_words_le (content : String) (m : Int) (hm : 0 ≤ m)
    (h : (Utils.count_words content : Int) > m) :
    (Utils.count_words (Utils.truncate_to_word_limit content m).1 : Int) ≤ m + 12 := by
  obtain ⟨tl, _, heq, hsum⟩ := truncate_true_struct content m h
  have heq1 : (Utils.truncate_to_word_limit content m).1 =
      Utils.wordTruncNotice ((tl.map Utils.count_words).sum) ++ pyConcat tl := by
    rw [heq]
  rw [heq1]
  have h1 := count_words_append_le (Utils.wordTruncNotice ((tl.map Utils.count_words).sum))
    (pyConcat tl)
  have h2 := wordTruncNotice_words_le ((tl.map Utils.count_words).sum)
  have h3 := count_words_pyConcat_le tl
  have hmax : max m 0 = m := by omega
  rw [hmax] at hsum
  omega

/-- The truncation flag is set iff the original word count exceeds the
limit, and in that case the word count reported in the notice is the kept
tail's count. -/
theorem truncate_flag (content : String) (m : Int) :
    ((Utils.truncate_to_word_limit content m).2 = true ↔
      (Utils.count_words content : Int) > m) := by
  by_cases h : (Utils.count_words content : Int) ≤ m
  · simp [Utils.truncate_to_word_limit, if_pos h]
    omega
  · simp [Utils.truncate_to_word_limit, if_neg h]
    omega

/-!  ## Claims C6 and C4: `truncate_to_word_limit` -/

/-- C6: `truncate_to_word_limit(t, n)` returns the input unchanged with
flag `false` exactly when `count_words t ≤ n`, and the flag is `true`
exactly when `count_words t > n`. -/
theorem C6_truncate_iff (t : String) (n : Int) :
    (((Utils.truncate_to_word_limit t n).1 = t ∧
        (Utils.truncate_to_word_limit t n).2 = false) ↔
      (Utils.count_words t : Int) ≤ n) ∧
    ((Utils.truncate_to_word_limit t n).2 = true ↔ (Utils.count_words t : Int) > n) := by
  refine ⟨⟨fun h => ?_, fun h => ?_⟩, truncate_flag t n⟩
  · by_contra hgt
    have := (truncate_flag t n).mpr (by omega)
    rw [h.2] at this
    exact Bool.false_ne_true this
  · simp [Utils.truncate_to_word_limit, if_pos h]

/-- C4 counterexample: on six one-word lines with limit 5, truncation is
reported but the returned text (notice included) counts 17 > 5 words. -/
theorem C4_counterexample :
    (Utils.truncate_to_word_limit "a\nb\nc\nd\ne\nf" 5).2 = true ∧
    ¬ Utils.count_words (Utils.truncate_to_word_limit "a\nb\nc\nd\ne\nf" 5).1 ≤ 5 := by
  constructor
  · decide
  · decide

/-- C4 (amended): when truncation is reported for a non-negative limit `n`,
the returned text is the truncation notice followed by a tail of the
input's lines whose word count is at most `n`; the whole returned text
(notice included) counts at most `n + 12` words. -/
theorem C4_amended (t : String) (n : Int) (hn : 0 ≤ n)
    (h : (Utils.truncate_to_word_limit t n).2 = true) :
    (Utils.count_words (Utils.truncate_to_word_limit t n).1 : Int) ≤ n + 12 ∧
    ∃ tl, tl <:+ pySplitlines true t ∧
      (Utils.truncate_to_word_limit t n).1 =
        Utils.wordTruncNotice ((tl.map Utils.count_words).sum) ++ pyConcat tl ∧
      ((tl.map Utils.count_words).sum : Int) ≤ n := by
  have hgt : (Utils.count_words t : Int) > n := (truncate_flag t n).mp h
  refine ⟨truncate_true_words_le t n hn hgt, ?_⟩
  obtain ⟨tl, hsuf, heq, hsum⟩ := truncate_true_struct t n hgt
  have hmax : max n 0 = n := by omega
  exact ⟨tl, hsuf, by rw [heq], by rw [hmax] at hsum; exact hsum⟩

/-- Witness for the amended C4 at the counterexample input. -/
theorem C4_amended_witness :
    (0 ≤ (5 : Int) ∧ (Utils.truncate_to_word_limit "a\nb\nc\nd\ne\nf" 5).2 = true) ∧
    ((Utils.count_words (Utils.truncate_to_word_limit "a\nb\nc\nd\ne\nf" 5).1 : Int) ≤ 5 + 12 ∧
      ∃ tl, tl <:+ pySplitlines true "a\nb\nc\nd\ne\nf" ∧
        (Utils.truncate_to_word_limit "a\nb\nc\nd\ne\nf" 5).1 =
          Utils.wordTruncNotice ((tl.map Utils.count_words).sum) ++ pyConcat tl ∧
        ((tl.map Utils.count_words).sum : Int) ≤ 5) :=
  ⟨⟨by decide, by decide⟩, C4_amended "a\nb\nc\nd\ne\nf" 5 (by decide) (by decide)⟩

/-!  ## Claim C7: `read_file_safe` line truncation -/

theorem pyReadlinesAux_flatten (l : List Char) : ∀ cur,
    (pyReadlinesAux cur l).flatten = cur.reverse ++ l := by
  induction l with
  | nil =>
    intro cur
    by_cases h : cur.isEmpty
    · simp_all [pyReadlinesAux, List.isEmpty_iff]
    · simp_all [pyReadlinesAux]
  | cons c cs ih =>
    intro cur
    by_cases h : c = '\n' <;> simp [pyReadlinesAux, h, ih]

theorem pyConcat_pyReadlines (t : String) : pyConcat (pyReadlines t) = t := by
  have hdata : (pyConcat (pyReadlines t)).data = t.data := by
    rw [pyConcat_data, pyReadlines, List.map_map]
    have : (String.data ∘ String.mk) = id := by funext l; rfl
    rw [this, List.map_id]
    simpa using pyReadlinesAux_flatten t.data []
  cases ht : t
  revert hdata
  cases hc : pyConcat (pyReadlines t)
  simp_all

/-- C7 counterexample: with `max_lines = 0`, Python's `lines[-0:]` slice
is the whole list, so a readable one-line file read with cap 0 returns the
truncation notice followed by the entire content — not the last 0 lines,
which would leave the notice alone. -/
theorem C7_counterexample :
    Utils.read_file_safe (singleFileFS "r/f" "a\n") "r/f" 0 =
      some (Utils.truncNotice 0 ++ "a\n") ∧
    Utils.read_file_safe (singleFileFS "r/f" "a\n") "r/f" 0 ≠
      some (Utils.truncNotice 0 ++ pyConcat []) :=
  ⟨by decide, by decide⟩

/-- C7 (amended): on an existing, readable file with exactly `maxLines`
lines, `read_file_safe` returns the full decoded content unchanged (no
notice); with `maxLines + 1` lines and `maxLines ≥ 1` it returns the
line-truncation notice followed by exactly the last `maxLines` lines;
with `maxLines = 0` and a non-empty file, `lines[-0:]` is the whole list,
so the notice is followed by the entire content. -/
theorem C7_amended (fs : FS) (p t : String) (maxLines : Nat)
    (hf : fs.isFile p = true) (hr : fs.read p = .ok t) :
    ((pyReadlines t).length = maxLines →
      Utils.read_file_safe fs p maxLines = some t) ∧
    (1 ≤ maxLines → (pyReadlines t).length = maxLines + 1 →
      Utils.read_file_safe fs p maxLines =
        some (Utils.truncNotice maxLines ++ pyConcat ((pyReadlines t).drop 1)) ∧
      ((pyReadlines t).drop 1).length = maxLines ∧
      (pyReadlines t).drop 1 <:+ pyReadlines t) ∧
    (maxLines = 0 → 1 ≤ (pyReadlines t).length →
      Utils.read_file_safe fs p maxLines = some (Utils.truncNotice 0 ++ t)) := by
  refine ⟨?_, ?_, ?_⟩
  · intro hlen
    simp only [Utils.read_file_safe, hf, if_true, hr]
    rw [if_neg (by omega), pyConcat_pyReadlines]
  · intro hm hlen
    refine ⟨?_, by simp [hlen], List.drop_suffix 1 _⟩
    simp only [Utils.read_file_safe, hf, if_true, hr]
    rw [if_pos (by omega)]
    unfold pyLastN
    rw [if_neg (by omega), hlen]
    simp
  · intro hm hlen
    subst hm
    simp only [Utils.read_file_safe, hf, if_true, hr]
    rw [if_pos (by omega)]
    unfold pyLastN
    rw [if_pos rfl, pyConcat_pyReadlines]

/-- Witness for the amended C7: a three-line file read with caps 3 and 2,
and a one-line file read with cap 0. -/
theorem C7_amended_witness :
    ((singleFileFS "r/f" "a\nb\nc\n").isFile "r/f" = true ∧
      (pyReadlines "a\nb\nc\n").length = 3 ∧
      Utils.read_file_safe (singleFileFS "r/f" "a\nb\nc\n") "r/f" 3 = some "a\nb\nc\n") ∧
    (1 ≤ 2 ∧ (pyReadlines "a\nb\nc\n").length = 2 + 1 ∧
      Utils.read_file_safe (singleFileFS "r/f" "a\nb\nc\n") "r/f" 2 =
        some (Utils.truncNotice 2 ++ pyConcat ((pyReadlines "a\nb\nc\n").drop 1)) ∧
      ((pyReadlines "a\nb\nc\n").drop 1).length = 2) ∧
    (1 ≤ (pyReadlines "a\n").length ∧
      Utils.read_file_safe (singleFileFS "r/f" "a\n") "r/f" 0 =
        some (Utils.truncNotice 0 ++ "a\n")) :=
  ⟨⟨by decide, by decide,
      (C7_amended (singleFileFS "r/f" "a\nb\nc\n") "r/f" "a\nb\nc\n" 3
        (by decide) rfl).1 (by decide)⟩,
   ⟨by decide, by decide,
      ((C7_amended (singleFileFS "r/f" "a\nb\nc\n") "r/f" "a\nb\nc\n" 2
        (by decide) rfl).2.1 (by decide) (by decide)).1,
      ((C7_amended (singleFileFS "r/f" "a\nb\nc\n") "r/f" "a\nb\nc\n" 2
        (by decide) rfl).2.1 (by decide) (by decide)).2.1⟩,
   ⟨by decide,
      (C7_amended (singleFileFS "r/f" "a\n") "r/f" "a\n" 0
        (by decide) rfl).2.2 rfl (by decide)⟩⟩

/-!  ## Claim C8: `resolve_paths` -/

theorem addAll_eq (l : List String) : ∀ s : Finset String,
    Utils.addAll s l = s ∪ l.toFinset := by
  induction l with
  | nil => intro s; simp [Utils.addAll]
  | cons x xs ih =>
    intro s
    show Utils.addAll (insert x s) xs = _
    rw [ih]
    ext p
    simp [or_comm, or_assoc, or_left_comm]

theorem foldl_addAll (g : String → List String) (l : List String) :
    ∀ init : Finset String,
      l.foldl (fun acc x => Utils.addAll acc (g x)) init =
        init ∪ l.toFinset.biUnion (fun x => (g x).toFinset) := by
  induction l with
  | nil => intro init; simp
  | cons x xs ih =>
    intro init
    rw [List.foldl_cons, ih, addAll_eq]
    ext p
    simp [or_assoc]

theorem resolve_paths_eq (fs : FS) (root : String) (fl gl : List String) :
    Utils.resolve_paths fs root fl gl =
      ((fl.toFinset.biUnion fun rel => (Utils.fileContrib fs root rel).toFinset) ∪
        gl.toFinset.biUnion fun pat => (Utils.globContrib fs root pat).toFinset).sort (· ≤ ·) := by
  unfold Utils.resolve_paths
  simp only [foldl_addAll]
  simp

/-- C8: `resolve_paths` returns a strictly sorted, duplicate-free list; its
output only depends on the sets of entries of `files` and `globs` (so it is
invariant under reordering and duplication, within each list and across
them), and a path appears exactly when some explicit entry or some glob
pattern contributes it. -/
theorem C8_resolve_paths (fs : FS) (root : String) (fl gl fl2 gl2 : List String)
    (hf : fl.toFinset = fl2.toFinset) (hg : gl.toFinset = gl2.toFinset) :
    List.Sorted (· < ·) (Utils.resolve_paths fs root fl gl) ∧
    (Utils.resolve_paths fs root fl gl).Nodup ∧
    Utils.resolve_paths fs root fl gl = Utils.resolve_paths fs root fl2 gl2 ∧
    ∀ p, p ∈ Utils.resolve_paths fs root fl gl ↔
      ((∃ rel ∈ fl, p ∈ Utils.fileContrib fs root rel) ∨
        ∃ pat ∈ gl, p ∈ Utils.globContrib fs root pat) := by
  refine ⟨?_, ?_, ?_, ?_⟩
  · rw [resolve_paths_eq]; exact Finset.sort_sorted_lt _
  · rw [resolve_paths_eq]; exact Finset.sort_nodup _ _
  · rw [resolve_paths_eq, resolve_paths_eq, hf, hg]
  · intro p
    rw [resolve_paths_eq, Finset.mem_sort]
    simp [List.mem_toFinset]

/-- Witness for C8 on a snapshot with two files, a directory and a glob,
with duplicated and reordered input lists. -/
theorem C8_witness :
    ((["a", "d", "a"] : List String).toFinset = (["d", "a"] : List String).toFinset ∧
      (["*", "*"] : List String).toFinset = (["*"] : List String).toFinset) ∧
    (List.Sorted (· < ·) (Utils.resolve_paths fsResolver "root" ["a", "d", "a"] ["*", "*"]) ∧
      (Utils.resolve_paths fsResolver "root" ["a", "d", "a"] ["*", "*"]).Nodup ∧
      Utils.resolve_paths fsResolver "root" ["a", "d", "a"] ["*", "*"] =
        Utils.resolve_paths fsResolver "root" ["d", "a"] ["*"]) :=
  ⟨⟨by decide, by decide⟩,
   (C8_resolve_paths fsResolver "root" ["a", "d", "a"] ["*", "*"] ["d", "a"] ["*"]
      (by decide) (by decide)).1,
   (C8_resolve_paths fsResolver "root" ["a", "d", "a"] ["*", "*"] ["d", "a"] ["*"]
      (by decide) (by decide)).2.1,
   (C8_resolve_paths fsResolver "root" ["a", "d", "a"] ["*", "*"] ["d", "a"] ["*"]
      (by decide) (by decide)).2.2.1⟩

/-!  ## Check-loop lemmas (builders.py) -/

theorem runChecks_mem_triggered (fs : FS) (root : String) (lm : Nat)
    (checks : List CheckDef) (c : CheckDef) (content : String)
    (hc : c ∈ checks)
    (hread : Utils.read_file_safe fs (pyJoinPath root c.source) lm = some content)
    (htrig : Builders.checkTriggered c content = true) :
    (c, Builders.checkDisplay c content) ∈ (Builders.runChecks fs root lm checks).1 := by
  induction checks with
  | nil => cases hc
  | cons d rest ih =>
    rcases List.mem_cons.mp hc with h | h
    · subst h
      simp only [Builders.runChecks, hread, htrig, if_true]
      exact List.mem_cons_self _ _
    · simp only [Builders.runChecks]
      cases Utils.read_file_safe fs (pyJoinPath root d.source) lm with
      | none => exact ih h
      | some content2 =>
        by_cases ht : Builders.checkTriggered d content2 <;>
          simp only [ht, if_true, if_false, Bool.false_eq_true]
        · exact List.mem_cons_of_mem _ (ih h)
        · exact ih h

theorem runChecks_mem_clean (fs : FS) (root : String) (lm : Nat)
    (checks : List CheckDef) (c : CheckDef) (content : String)
    (hc : c ∈ checks)
    (hread : Utils.read_file_safe fs (pyJoinPath root c.source) lm = some content)
    (htrig : Builders.checkTriggered c content = false) :
    c.name ∈ (Builders.runChecks fs root lm checks).2 := by
  induction checks with
  | nil => cases hc
  | cons d rest ih =>
    rcases List.mem_cons.mp hc with h | h
    · subst h
      simp only [Builders.runChecks, hread, htrig, Bool.false_eq_true, if_false]
      exact List.mem_cons_self _ _
    · simp only [Builders.runChecks]
      cases Utils.read_file_safe fs (pyJoinPath root d.source) lm with
      | none => exact ih h
      | some content2 =>
        by_cases ht : Builders.checkTriggered d content2 <;>
          simp only [ht, if_true, if_false, Bool.false_eq_true]
        · exact ih h
        · exact List.mem_cons_of_mem _ (ih h)

theorem runChecks_no_trigger (fs : FS) (root : String) (lm : Nat)
    (checks : List CheckDef) (cname : String)
    (h : ∀ c ∈ checks, c.name = cname → ∀ content,
          Utils.read_file_safe fs (pyJoinPath root c.source) lm = some content →
          Builders.checkTriggered c content = false) :
    ∀ p ∈ (Builders.runChecks fs root lm checks).1, p.1.name ≠ cname := by
  induction checks with
  | nil => intro p hp; cases hp
  | cons d rest ih =>
    have hrest := ih fun c hc => h c (List.mem_cons_of_mem _ hc)
    intro p hp
    revert hp
    simp only [Builders.runChecks]
    cases hrd : Utils.read_file_safe fs (pyJoinPath root d.source) lm with
    | none => exact fun hp => hrest p hp
    | some content2 =>
      by_cases ht : Builders.checkTriggered d content2 <;>
        simp only [ht, if_true, if_false, Bool.false_eq_true]
      · intro hp
        rcases List.mem_cons.mp hp with h2 | h2
        · subst h2
          intro hn
          have := h d (List.mem_cons_self _ _) hn content2 hrd
          rw [this] at ht
          exact Bool.false_ne_true ht
        · exact hrest p h2
      · exact fun hp => hrest p hp

theorem runChecks_not_clean (fs : FS) (root : String) (lm : Nat)
    (checks : List CheckDef) (cname : String)
    (h : ∀ c ∈ checks, c.name = cname →
          Utils.read_file_safe fs (pyJoinPath root c.source) lm = none) :
    cname ∉ (Builders.runChecks fs root lm checks).2 := by
  induction checks with
  | nil => intro hp; cases hp
  | cons d rest ih =>
    have hrest := ih fun c hc => h c (List.mem_cons_of_mem _ hc)
    simp only [Builders.runChecks]
    cases hrd : Utils.read_file_safe fs (pyJoinPath root d.source) lm with
    | none => exact hrest
    | some content2 =>
      by_cases ht : Builders.checkTriggered d content2 <;>
        simp only [ht, if_true, if_false, Bool.false_eq_true]
      · exact hrest
      · intro hp
        rcases List.mem_cons.mp hp with h2 | h2
        · have := h d (List.mem_cons_self _ _) h2.symm
          rw [this] at hrd
          cases hrd
        · exact hrest h2

/-!  ## Claim C9: a raising predicate degrades to clean -/

/-- C9: when a check's source reads successfully and its predicate raises,
the check is recorded clean: its name joins the clean list (counted among
checks passed) and no triggered entry carries its name. -/
theorem C9_predicate_raises (fs : FS) (root : String) (lm : Nat)
    (checks : List CheckDef) (c : CheckDef) (content : String) (e : Unit)
    (hc : c ∈ checks)
    (huniq : ∀ c' ∈ checks, c'.name = c.name → c' = c)
    (hread : Utils.read_file_safe fs (pyJoinPath root c.source) lm = some content)
    (hraise : c.check content = .error e) :
    c.name ∈ (Builders.runChecks fs root lm checks).2 ∧
    ∀ p ∈ (Builders.runChecks fs root lm checks).1, p.1.name ≠ c.name := by
  have htrig : Builders.checkTriggered c content = false := by
    simp [Builders.checkTriggered, hraise]
  refine ⟨runChecks_mem_clean fs root lm checks c content hc hread htrig, ?_⟩
  apply runChecks_no_trigger
  intro c' hc' hn content' hread'
  have hcc : c' = c := huniq c' hc' hn
  subst hcc
  rw [hread'] at hread
  cases hread
  exact htrig

/-- Witness for C9: a one-check registry whose predicate always raises, on
a snapshot where its source file is present and readable. -/
theorem C9_witness :
    (raisingCheck ∈ [raisingCheck] ∧
      Utils.read_file_safe (singleFileFS "sosroot/etc/some.conf" "x")
        (pyJoinPath "sosroot" raisingCheck.source) 40000 = some "x" ∧
      raisingCheck.check "x" = .error ()) ∧
    raisingCheck.name ∈
      (Builders.runChecks (singleFileFS "sosroot/etc/some.conf" "x") "sosroot" 40000
        [raisingCheck]).2 ∧
    ∀ p ∈ (Builders.runChecks (singleFileFS "sosroot/etc/some.conf" "x") "sosroot" 40000
        [raisingCheck]).1, p.1.name ≠ raisingCheck.name :=
  ⟨⟨List.mem_singleton.mpr rfl, by decide, rfl⟩,
   C9_predicate_raises (singleFileFS "sosroot/etc/some.conf" "x") "sosroot" 40000
     [raisingCheck] raisingCheck "x" ()
     (List.mem_singleton.mpr rfl)
     (fun c' hc' _ => List.mem_singleton.mp hc')
     (by decide) rfl⟩

/-!  ## Claim C2: absent vs unreadable sources -/

/-- C2 counterexample: on a snapshot where the failed-units source exists
but raises `Permission denied` on read, the check is evaluated on the
bracketed error marker and lands in the TRIGGERED list (its display content
being the marker text), rather than being skipped. -/
theorem C2_counterexample :
    (Builders.runChecks fsPermDenied "sosroot" 40000 IssueChecks.ISSUE_CHECKS).1.map
        (fun p => p.1.name) = ["Failed Systemd Units"] ∧
    (Builders.runChecks fsPermDenied "sosroot" 40000 IssueChecks.ISSUE_CHECKS).1.map
        (fun p => p.2) = [some "[ERROR reading file: Permission denied]"] ∧
    (Builders.runChecks fsPermDenied "sosroot" 40000 IssueChecks.ISSUE_CHECKS).2 = [] := by
  refine ⟨by decide, by decide, by decide⟩

/-- C2 (amended): a check whose source file is ABSENT is skipped (in
neither list, excluded from both counts); a check whose source exists but
fails to read is NOT skipped: `read_file_safe` yields the bracketed error
marker, the predicate is evaluated on that marker, and the check is
recorded triggered or clean by that verdict. -/
theorem C2_amended (fs : FS) (root : String) (lm : Nat)
    (checks : List CheckDef) (c : CheckDef)
    (hc : c ∈ checks)
    (huniq : ∀ c' ∈ checks, c'.name = c.name → c' = c) :
    (fs.isFile (pyJoinPath root c.source) = false →
      (∀ p ∈ (Builders.runChecks fs root lm checks).1, p.1.name ≠ c.name) ∧
      c.name ∉ (Builders.runChecks fs root lm checks).2) ∧
    (∀ e, fs.isFile (pyJoinPath root c.source) = true →
      fs.read (pyJoinPath root c.source) = .error e →
      Utils.read_file_safe fs (pyJoinPath root c.source) lm =
        some ("[ERROR reading file: " ++ e ++ "]") ∧
      (Builders.checkTriggered c ("[ERROR reading file: " ++ e ++ "]") = true →
        (c, Builders.checkDisplay c ("[ERROR reading file: " ++ e ++ "]")) ∈
          (Builders.runChecks fs root lm checks).1) ∧
      (Builders.checkTriggered c ("[ERROR reading file: " ++ e ++ "]") = false →
        c.name ∈ (Builders.runChecks fs root lm checks).2)) := by
  constructor
  · intro habs
    have hnone : ∀ c' ∈ checks, c'.name = c.name →
        Utils.read_file_safe fs (pyJoinPath root c'.source) lm = none := by
      intro c' hc' hn
      have := huniq c' hc' hn
      subst this
      simp [Utils.read_file_safe, habs]
    refine ⟨runChecks_no_trigger fs root lm checks c.name ?_, 
      runChecks_not_clean fs root lm checks c.name hnone⟩
    intro c' hc' hn content hread
    rw [hnone c' hc' hn] at hread
    cases hread
  · intro e hfile hread
    have hsafe : Utils.read_file_safe fs (pyJoinPath root c.source) lm =
        some ("[ERROR reading file: " ++ e ++ "]") := by
      simp [Utils.read_file_safe, hfile, hread]
    refine ⟨hsafe, fun ht => ?_, fun ht => ?_⟩
    · exact runChecks_mem_triggered fs root lm checks c _ hc hsafe ht
    · exact runChecks_mem_clean fs root lm checks c _ hc hsafe ht

/-- Witness for the amended C2: a one-check registry on an empty snapshot
(absent: skipped) and on a snapshot whose file raises on read (evaluated,
recorded clean because the raising predicate degrades to false). -/
theorem C2_amended_witness :
    ((fsEmpty.isFile (pyJoinPath "sosroot" raisingCheck.source) = false ∧
      (∀ p ∈ (Builders.runChecks fsEmpty "sosroot" 40000 [raisingCheck]).1,
        p.1.name ≠ raisingCheck.name) ∧
      raisingCheck.name ∉ (Builders.runChecks fsEmpty "sosroot" 40000 [raisingCheck]).2) ∧
     ((unreadableFileFS "sosroot/etc/some.conf" "Permission denied").isFile
        (pyJoinPath "sosroot" raisingCheck.source) = true ∧
      Utils.read_file_safe (unreadableFileFS "sosroot/etc/some.conf" "Permission denied")
        (pyJoinPath "sosroot" raisingCheck.source) 40000 =
          some ("[ERROR reading file: " ++ "Permission denied" ++ "]") ∧
      raisingCheck.name ∈
        (Builders.runChecks (unreadableFileFS "sosroot/etc/some.conf" "Permission denied")
          "sosroot" 40000 [raisingCheck]).2)) :=
  ⟨⟨by decide,
    (C2_amended fsEmpty "sosroot" 40000 [raisingCheck] raisingCheck
      (List.mem_singleton.mpr rfl) (fun c' hc' _ => List.mem_singleton.mp hc')).1
      (by decide)⟩,
   ⟨by decide,
    ((C2_amended (unreadableFileFS "sosroot/etc/some.conf" "Permission denied")
        "sosroot" 40000 [raisingCheck] raisingCheck
        (List.mem_singleton.mpr rfl) (fun c' hc' _ => List.mem_singleton.mp hc')).2
      "Permission denied" (by decide) rfl).1,
    ((C2_amended (unreadableFileFS "sosroot/etc/some.conf" "Permission denied")
        "sosroot" 40000 [raisingCheck] raisingCheck
        (List.mem_singleton.mpr rfl) (fun c' hc' _ => List.mem_singleton.mp hc')).2
      "Permission denied" (by decide) rfl).2.2 (by decide)⟩⟩

/-!  ## Claim C3: empty filter results -/

set_option maxRecDepth 40000 in
/-- C3 counterexample: in preproc-sos.py's issues report, the OOM check
triggers on `Out of memory: kill process 123` while its filter (lines
containing `oom`) matches nothing; the detail section shows the unfiltered
full text in a fenced block, and no no-matching-lines notice appears. -/
theorem C3_counterexample :
    pyContains
      (PreprocSOS.build_issues_md fsOomNoMatch "2025-01-01 00:00:00" 40000
        IssueChecks.ISSUE_CHECKS "sosroot")
      "```\nOut of memory: kill process 123\n```" = true ∧
    pyContains
      (PreprocSOS.build_issues_md fsOomNoMatch "2025-01-01 00:00:00" 40000
        IssueChecks.ISSUE_CHECKS "sosroot")
      "no matching lines found" = false := by
  exact ⟨by decide, by decide⟩

/-- C3 (amended): when a triggered check's filter yields an empty list,
builders.py records a `none` display and renders the explicit
no-matching-lines notice naming the source and the `filter_terms` (never
the full text, never empty output); preproc-sos.py instead falls back to
displaying the unfiltered full text. -/
theorem C3_amended (fs : FS) (root : String) (lm : Nat) (checks : List CheckDef)
    (c : CheckDef) (content : String)
    (f : List String → Except Unit (List String))
    (hc : c ∈ checks)
    (hread : Utils.read_file_safe fs (pyJoinPath root c.source) lm = some content)
    (htrig : Builders.checkTriggered c content = true)
    (hfil : c.filter = some f)
    (hempty : f (pySplitlines false content) = .ok []) :
    Builders.checkDisplay c content = none ∧
    (c, (none : Option String)) ∈ (Builders.runChecks fs root lm checks).1 ∧
    Builders.detailSection (c, none) =
      ["## " ++ c.name, "",
       "**Source:** `" ++ c.source ++ "`",
       "**What this means:** " ++ c.description, "",
       "*Searched `" ++ c.source ++ "` for " ++
         c.filter_terms.getD "the specified patterns" ++ " — no matching lines found.*",
       "", "---", ""] ∧
    PreprocSOS.checkDisplay c content = content := by
  have hdisp : Builders.checkDisplay c content = none := by
    simp [Builders.checkDisplay, hfil, hempty]
  refine ⟨hdisp, ?_, ?_, ?_⟩
  · have := runChecks_mem_triggered fs root lm checks c content hc hread htrig
    rwa [hdisp] at this
  · rfl
  · simp [PreprocSOS.checkDisplay, hfil, hempty]

/-- Witness for the amended C3: the OOM check of the registry on the
no-matching-lines snapshot. -/
theorem C3_amended_witness :
    (IssueChecks.checkOomKiller ∈ IssueChecks.ISSUE_CHECKS ∧
      Utils.read_file_safe fsOomNoMatch
        (pyJoinPath "sosroot" IssueChecks.checkOomKiller.source) 40000 =
          some "Out of memory: kill process 123\n" ∧
      Builders.checkTriggered IssueChecks.checkOomKiller
        "Out of memory: kill process 123\n" = true) ∧
    Builders.checkDisplay IssueChecks.checkOomKiller
      "Out of memory: kill process 123\n" = none ∧
    (IssueChecks.checkOomKiller, (none : Option String)) ∈
      (Builders.runChecks fsOomNoMatch "sosroot" 40000 IssueChecks.ISSUE_CHECKS).1 ∧
    PreprocSOS.checkDisplay IssueChecks.checkOomKiller
      "Out of memory: kill process 123\n" = "Out of memory: kill process 123\n" := by
  have h := C3_amended fsOomNoMatch "sosroot" 40000 IssueChecks.ISSUE_CHECKS
    IssueChecks.checkOomKiller "Out of memory: kill process 123\n"
    (fun lines => .ok (IssueChecks.lastN 100 (lines.filter fun l => pyContains (pyLower l) "oom")))
    (by exact .tail _ (.tail _ (.head _)))
    (by decide) (by decide) rfl (by rfl)
  exact ⟨⟨.tail _ (.tail _ (.head _)), by decide, by decide⟩, h.1, h.2.1, h.2.2.2⟩

/-!  ## preproc-sos.py helpers agree with utils.py -/

theorem preproc_keepLinesFromEnd_eq (m : Int) (ls : List String) : ∀ wc,
    PreprocSOS.keepLinesFromEnd m wc ls = Utils.keepLinesFromEnd m wc ls := by
  induction ls with
  | nil => intro wc; rfl
  | cons line rest ih =>
    intro wc
    simp only [PreprocSOS.keepLinesFromEnd, Utils.keepLinesFromEnd,
      show PreprocSOS.count_words = Utils.count_words from rfl]
    split
    · rfl
    · simp [ih]

theorem preproc_truncate_eq (c : String) (m : Int) :
    PreprocSOS.truncate_to_word_limit c m = Utils.truncate_to_word_limit c m := by
  simp only [PreprocSOS.truncate_to_word_limit, Utils.truncate_to_word_limit,
    show PreprocSOS.count_words = Utils.count_words from rfl,
    show PreprocSOS.wordTruncNotice = Utils.wordTruncNotice from rfl,
    preproc_keepLinesFromEnd_eq]

/-!  ## Claim C5: section order and truncation scope -/

set_option maxRecDepth 40000 in
/-- C5 counterexample: in the report built by preproc-sos.py's
`build_issues_md`, the detail heading of the triggered check occurs
strictly before the first occurrence of the summary heading: the summary
(part of the footer there) does not precede the detail section. -/
theorem C5_counterexample :
    precedesIn "## Failed Systemd Units".data "## Summary".data
      (PreprocSOS.build_issues_md fsFailedUnit "2025-01-01 00:00:00" 40000
        IssueChecks.ISSUE_CHECKS "sosroot").data = true := by
  decide

/-- C5 (amended): builders.py's issues report is
`header ++ summary ++ details ++ footer` — summary before details, the
other three sections verbatim, truncation replacing only the detail
section by the notice plus a tail of its lines; preproc-sos.py's issues
report is `header ++ details ++ footer` with the summary inside the
trailing footer (after the details), the header and footer verbatim and
truncation again confined to the details; the subject builder returns
either a header-plus-placeholder or `header ++ body ++ footer` with
truncation confined to the body. -/
theorem C5_amended (fs : FS) (now : String) (lm dml : Nat)
    (checks : List CheckDef) (root : String) (sd : SubjectDef) :
    (∃ d, Builders.build_issues_md fs now lm checks root =
        Builders.issuesHeader fs root now ++
          Builders.issuesSummary (Builders.runChecks fs root lm checks).1
            (Builders.runChecks fs root lm checks).2 ++ d ++ Builders.issuesFooter ∧
      (d = Builders.issuesDetails (Builders.runChecks fs root lm checks).1 ∨
        ∃ tl, tl <:+ pySplitlines true
            (Builders.issuesDetails (Builders.runChecks fs root lm checks).1) ∧
          d = Utils.wordTruncNotice ((tl.map Utils.count_words).sum) ++ pyConcat tl)) ∧
    (∃ d, PreprocSOS.build_issues_md fs now lm checks root =
        PreprocSOS.issuesHeader fs root now ++ d ++
          PreprocSOS.issuesFooter (PreprocSOS.runChecks fs root lm checks).1.length
            (PreprocSOS.runChecks fs root lm checks).2 ∧
      (d = PreprocSOS.issuesDetails (PreprocSOS.runChecks fs root lm checks).1 ∨
        ∃ tl, tl <:+ pySplitlines true
            (PreprocSOS.issuesDetails (PreprocSOS.runChecks fs root lm checks).1) ∧
          d = Utils.wordTruncNotice ((tl.map Utils.count_words).sum) ++ pyConcat tl)) ∧
    (Builders.build_subject_md fs now dml root sd =
        Builders.subjectHeader now root sd ++ "*No matching files found in this sosreport.*" ∨
      Builders.build_subject_md fs now dml root sd =
        Builders.subjectHeader now root sd ++
          "*No readable files with content found for this subject.*" ∨
      ∃ d, Builders.build_subject_md fs now dml root sd =
        Builders.subjectHeader now root sd ++ d ++
          Builders.subjectFooter (Builders.subjectKept fs dml root sd).length ∧
        (d = pyJoin "\n" (Builders.subjectKept fs dml root sd).flatten ∨
          ∃ tl, tl <:+ pySplitlines true (pyJoin "\n" (Builders.subjectKept fs dml root sd).flatten) ∧
            d = Utils.wordTruncNotice ((tl.map Utils.count_words).sum) ++ pyConcat tl)) := by
  refine ⟨?_, ?_, ?_⟩
  · by_cases hov :
      (Utils.count_words (Builders.issuesDetails (Builders.runChecks fs root lm checks).1) : Int) >
        Builders.issuesBudget fs root now lm checks
    · obtain ⟨tl, hsuf, heq, _⟩ := truncate_true_struct _ _ hov
      have heq1 : (Utils.truncate_to_word_limit
          (Builders.issuesDetails (Builders.runChecks fs root lm checks).1)
          (Builders.issuesBudget fs root now lm checks)).1 =
          Utils.wordTruncNotice ((tl.map Utils.count_words).sum) ++ pyConcat tl := by
        rw [heq]
      refine ⟨_, ?_, Or.inr ⟨tl, hsuf, heq1⟩⟩
      simp only [Builders.build_issues_md, if_pos hov]
    · refine ⟨_, ?_, Or.inl rfl⟩
      simp only [Builders.build_issues_md, if_neg hov]
  · by_cases hov :
      (PreprocSOS.count_words (PreprocSOS.issuesDetails (PreprocSOS.runChecks fs root lm checks).1) : Int) >
        PreprocSOS.issuesBudget fs root now lm checks
    · obtain ⟨tl, hsuf, heq, _⟩ := truncate_true_struct _ _ hov
      have heq1 : (Utils.truncate_to_word_limit
          (PreprocSOS.issuesDetails (PreprocSOS.runChecks fs root lm checks).1)
          (PreprocSOS.issuesBudget fs root now lm checks)).1 =
          Utils.wordTruncNotice ((tl.map Utils.count_words).sum) ++ pyConcat tl := by
        rw [heq]
      refine ⟨_, ?_, Or.inr ⟨tl, hsuf, heq1⟩⟩
      simp only [PreprocSOS.build_issues_md, if_pos hov, preproc_truncate_eq]
    · refine ⟨_, ?_, Or.inl rfl⟩
      simp only [PreprocSOS.build_issues_md, if_neg hov]
  · by_cases hres : Utils.resolve_paths fs root sd.files sd.globs = []
    · exact Or.inl (by simp only [Builders.build_subject_md, if_pos hres])
    · by_cases hkept : Builders.subjectKept fs dml root sd = []
      · exact Or.inr (Or.inl (by simp only [Builders.build_subject_md, if_neg hres, if_pos hkept]))
      · refine Or.inr (Or.inr ?_)
        by_cases hov :
          (Utils.count_words (pyJoin "\n" (Builders.subjectKept fs dml root sd).flatten) : Int) >
            Builders.subjectBudget fs now dml root sd
        · obtain ⟨tl, hsuf, heq, _⟩ := truncate_true_struct _ _ hov
          have heq1 : (Utils.truncate_to_word_limit
              (pyJoin "\n" (Builders.subjectKept fs dml root sd).flatten)
              (Builders.subjectBudget fs now dml root sd)).1 =
              Utils.wordTruncNotice ((tl.map Utils.count_words).sum) ++ pyConcat tl := by
            rw [heq]
          refine ⟨_, ?_, Or.inr ⟨tl, hsuf, heq1⟩⟩
          simp only [Builders.build_subject_md, if_neg hres, if_neg hkept, if_pos hov]
        · refine ⟨_, ?_, Or.inl rfl⟩
          simp only [Builders.build_subject_md, if_neg hres, if_neg hkept, if_neg hov]

/-!  ## Claim C10: the two subject builders agree -/

/-- C10: for every snapshot, subject definition, line-cap default and
generation timestamp, preproc-sos.py's `build_subject_md` and builders.py's
`build_subject_md` return identical text. -/
theorem C10_subject_builders_agree (fs : FS) (now : String) (dml : Nat)
    (root : String) (sd : SubjectDef) :
    PreprocSOS.build_subject_md fs now dml root sd =
      Builders.build_subject_md fs now dml root sd := by
  simp only [PreprocSOS.build_subject_md, Builders.build_subject_md,
    show PreprocSOS.resolve_paths = Utils.resolve_paths from rfl,
    show PreprocSOS.subjectHeader = Builders.subjectHeader from rfl,
    show PreprocSOS.subjectKept = Builders.subjectKept from rfl,
    show PreprocSOS.subjectBudget = Builders.subjectBudget from rfl,
    show PreprocSOS.subjectFooter = Builders.subjectFooter from rfl,
    show PreprocSOS.count_words = Utils.count_words from rfl,
    preproc_truncate_eq]

/-!  ## Claim C1: the 499,000-word ceiling -/

theorem resolve_paths_nil (fs : FS) (root : String) :
    Utils.resolve_paths fs root [] [] = [] := by
  rw [resolve_paths_eq]
  simp

theorem countWordsAux_prefix_ge (b : Bool) (x y : List Char) :
    countWordsAux b x ≤ countWordsAux b (x ++ y) := by
  rw [countWordsAux_append]
  omega

theorem cw_str_prefix_ge (a b : String) :
    Utils.count_words a ≤ Utils.count_words (a ++ b) := by
  simp only [count_words_eq_aux, String.data_append]
  exact countWordsAux_prefix_ge false _ _

theorem cw_repAB_false : ∀ n, countWordsAux false (repAB n) = n := by
  intro n
  induction n with
  | zero => rfl
  | succ k ih =>
    show countWordsAux false ('a' :: ' ' :: repAB k) = k + 1
    have ha : pyIsSpace 'a' = false := rfl
    have hs : pyIsSpace ' ' = true := rfl
    simp [countWordsAux, ha, hs, ih]
    omega

theorem cw_repAB_true (n : Nat) : countWordsAux true (repAB (n + 1)) = n := by
  show countWordsAux true ('a' :: ' ' :: repAB n) = n
  have ha : pyIsSpace 'a' = false := rfl
  have hs : pyIsSpace ' ' = true := rfl
  simp [countWordsAux, ha, hs, cw_repAB_false]

/-- C1 counterexample: a subject whose title alone holds 500001 one-letter
words makes `build_subject_md` return a document of more than 499,000 words
(the header is never truncated). -/
theorem C1_counterexample :
    ¬ Utils.count_words
        (Builders.build_subject_md fsEmpty "2025-01-01 00:00:00" 1500 "sosroot"
          bigTitleSubject) ≤ Builders.MAX_WORDS_PER_FILE := by
  have hres : Utils.resolve_paths fsEmpty "sosroot" bigTitleSubject.files
      bigTitleSubject.globs = [] := resolve_paths_nil _ _
  have hout : Builders.build_subject_md fsEmpty "2025-01-01 00:00:00" 1500 "sosroot"
      bigTitleSubject =
      Builders.subjectHeader "2025-01-01 00:00:00" "sosroot" bigTitleSubject ++
        "*No matching files found in this sosreport.*" := by
    simp only [Builders.build_subject_md, if_pos hres]
  have hr : Builders.subjectHeader "2025-01-01 00:00:00" "sosroot" bigTitleSubject =
      (("# " ++ String.mk (repAB 500001)) ++ "\n") ++
        pyJoin "\n" ["", "> d", "", "> Generated: 2025-01-01 00:00:00",
          "> SOS Report: `" ++ pyBasename "sosroot" ++ "`", "", "---", ""] := rfl
  have h3 : Utils.count_words ("# " ++ String.mk (repAB 500001)) = 500002 := by
    rw [count_words_eq_aux]
    have hd : ("# " ++ String.mk (repAB 500001)).data = "# ".data ++ repAB 500001 := rfl
    rw [hd, countWordsAux_append]
    have hws : wordState false "# ".data = false := rfl
    rw [hws, cw_repAB_false]
    have hcw : countWordsAux false "# ".data = 1 := rfl
    rw [hcw]
  have c1 := cw_str_prefix_ge ("# " ++ String.mk (repAB 500001)) "\n"
  have c2 := cw_str_prefix_ge (("# " ++ String.mk (repAB 500001)) ++ "\n")
    (pyJoin "\n" ["", "> d", "", "> Generated: 2025-01-01 00:00:00",
      "> SOS Report: `" ++ pyBasename "sosroot" ++ "`", "", "---", ""])
  have c3 := cw_str_prefix_ge
    ((("# " ++ String.mk (repAB 500001)) ++ "\n") ++
      pyJoin "\n" ["", "> d", "", "> Generated: 2025-01-01 00:00:00",
        "> SOS Report: `" ++ pyBasename "sosroot" ++ "`", "", "---", ""])
    "*No matching files found in this sosreport.*"
  have c4 : Utils.count_words
      (Builders.build_subject_md fsEmpty "2025-01-01 00:00:00" 1500 "sosroot"
        bigTitleSubject) =
      Utils.count_words
        (((("# " ++ String.mk (repAB 500001)) ++ "\n") ++
          pyJoin "\n" ["", "> d", "", "> Generated: 2025-01-01 00:00:00",
            "> SOS Report: `" ++ pyBasename "sosroot" ++ "`", "", "---", ""]) ++
          "*No matching files found in this sosreport.*") := by
    rw [hout, hr]
  intro hle
  rw [Builders.MAX_WORDS_PER_FILE] at hle
  omega

/-- C1 (amended): whenever the content word budget the builder computes is
nonnegative, the returned document's total word count stays within the
499,000-word ceiling; this holds for `build_subject_md` and for
`build_issues_md` of builders.py. -/
theorem C1_amended :
    (∀ (fs : FS) (now : String) (dml : Nat) (root : String) (sd : SubjectDef),
      0 ≤ Builders.subjectBudget fs now dml root sd →
      Utils.count_words (Builders.build_subject_md fs now dml root sd) ≤
        Builders.MAX_WORDS_PER_FILE) ∧
    (∀ (fs : FS) (now : String) (lm : Nat) (checks : List CheckDef) (root : String),
      0 ≤ Builders.issuesBudget fs root now lm checks →
      Utils.count_words (Builders.build_issues_md fs now lm checks root) ≤
        Builders.MAX_WORDS_PER_FILE) := by
  constructor
  · intro fs now dml root sd hb
    have hbud : Builders.subjectBudget fs now dml root sd =
        (Builders.MAX_WORDS_PER_FILE : Int) -
          Utils.count_words (Builders.subjectHeader now root sd) -
          Utils.count_words
            (Builders.subjectFooter (Builders.subjectKept fs dml root sd).length) - 20 := rfl
    by_cases hres : Utils.resolve_paths fs root sd.files sd.globs = []
    · have hout : Builders.build_subject_md fs now dml root sd =
          Builders.subjectHeader now root sd ++
            "*No matching files found in this sosreport.*" := by
        simp only [Builders.build_subject_md, hres, if_pos]
      rw [hout]
      have h1 := count_words_append_le (Builders.subjectHeader now root sd)
        "*No matching files found in this sosreport.*"
      have h2 : Utils.count_words "*No matching files found in this sosreport.*" = 7 := by
        decide
      rw [hbud] at hb
      rw [Builders.MAX_WORDS_PER_FILE] at *
      omega
    · by_cases hkept : Builders.subjectKept fs dml root sd = []
      · have hout : Builders.build_subject_md fs now dml root sd =
            Builders.subjectHeader now root sd ++
              "*No readable files with content found for this subject.*" := by
          simp only [Builders.build_subject_md, if_neg hres, if_pos hkept]
        rw [hout]
        have h1 := count_words_append_le (Builders.subjectHeader now root sd)
          "*No readable files with content found for this subject.*"
        have h2 : Utils.count_words
            "*No readable files with content found for this subject.*" = 9 := by
          decide
        rw [hbud] at hb
        rw [Builders.MAX_WORDS_PER_FILE] at *
        omega
      · by_cases hov :
          (Utils.count_words (pyJoin "\n" (Builders.subjectKept fs dml root sd).flatten) : Int) >
            Builders.subjectBudget fs now dml root sd
        · have hout : Builders.build_subject_md fs now dml root sd =
              Builders.subjectHeader now root sd ++
                (Utils.truncate_to_word_limit
                  (pyJoin "\n" (Builders.subjectKept fs dml root sd).flatten)
                  (Builders.subjectBudget fs now dml root sd)).1 ++
                Builders.subjectFooter (Builders.subjectKept fs dml root sd).length := by
            simp only [Builders.build_subject_md, if_neg hres, if_neg hkept, if_pos hov]
          rw [hout]
          have htr := truncate_true_words_le _ _ hb hov
          have h1 := count_words_append_le
            (Builders.subjectHeader now root sd ++
              (Utils.truncate_to_word_limit
                (pyJoin "\n" (Builders.subjectKept fs dml root sd).flatten)
                (Builders.subjectBudget fs now dml root sd)).1)
            (Builders.subjectFooter (Builders.subjectKept fs dml root sd).length)
          have h2 := count_words_append_le (Builders.subjectHeader now root sd)
            (Utils.truncate_to_word_limit
              (pyJoin "\n" (Builders.subjectKept fs dml root sd).flatten)
              (Builders.subjectBudget fs now dml root sd)).1
          rw [hbud] at *
          rw [Builders.MAX_WORDS_PER_FILE] at *
          omega
        · have hout : Builders.build_subject_md fs now dml root sd =
              Builders.subjectHeader now root sd ++
                pyJoin "\n" (Builders.subjectKept fs dml root sd).flatten ++
                Builders.subjectFooter (Builders.subjectKept fs dml root sd).length := by
            simp only [Builders.build_subject_md, if_neg hres, if_neg hkept, if_neg hov]
          rw [hout]
          have h1 := count_words_append_le
            (Builders.subjectHeader now root sd ++
              pyJoin "\n" (Builders.subjectKept fs dml root sd).flatten)
            (Builders.subjectFooter (Builders.subjectKept fs dml root sd).length)
          have h2 := count_words_append_le (Builders.subjectHeader now root sd)
            (pyJoin "\n" (Builders.subjectKept fs dml root sd).flatten)
          rw [hbud] at *
          rw [Builders.MAX_WORDS_PER_FILE] at *
          omega
  · intro fs now lm checks root hb
    have hbud : Builders.issuesBudget fs root now lm checks =
        (Builders.MAX_WORDS_PER_FILE : Int) -
          Utils.count_words (Builders.issuesHeader fs root now) -
          Utils.count_words
            (Builders.issuesSummary (Builders.runChecks fs root lm checks).1
              (Builders.runChecks fs root lm checks).2) -
          Utils.count_words Builders.issuesFooter - 20 := rfl
    by_cases hov :
      (Utils.count_words (Builders.issuesDetails (Builders.runChecks fs root lm checks).1) : Int) >
        Builders.issuesBudget fs root now lm checks
    · have hout : Builders.build_issues_md fs now lm checks root =
          Builders.issuesHeader fs root now ++
            Builders.issuesSummary (Builders.runChecks fs root lm checks).1
              (Builders.runChecks fs root lm checks).2 ++
            (Utils.truncate_to_word_limit
              (Builders.issuesDetails (Builders.runChecks fs root lm checks).1)
              (Builders.issuesBudget fs root now lm checks)).1 ++
            Builders.issuesFooter := by
        simp only [Builders.build_issues_md, if_pos hov]
      rw [hout]
      have htr := truncate_true_words_le _ _ hb hov
      have h1 := count_words_append_le
        (Builders.issuesHeader fs root now ++
          Builders.issuesSummary (Builders.runChecks fs root lm checks).1
            (Builders.runChecks fs root lm checks).2 ++
          (Utils.truncate_to_word_limit
            (Builders.issuesDetails (Builders.runChecks fs root lm checks).1)
            (Builders.issuesBudget fs root now lm checks)).1)
        Builders.issuesFooter
      have h2 := count_words_append_le
        (Builders.issuesHeader fs root now ++
          Builders.issuesSummary (Builders.runChecks fs root lm checks).1
            (Builders.runChecks fs root lm checks).2)
        (Utils.truncate_to_word_limit
          (Builders.issuesDetails (Builders.runChecks fs root lm checks).1)
          (Builders.issuesBudget fs root now lm checks)).1
      have h3 := count_words_append_le (Builders.issuesHeader fs root now)
        (Builders.issuesSummary (Builders.runChecks fs root lm checks).1
          (Builders.runChecks fs root lm checks).2)
      rw [hbud] at *
      rw [Builders.MAX_WORDS_PER_FILE] at *
      omega
    · have hout : Builders.build_issues_md fs now lm checks root =
          Builders.issuesHeader fs root now ++
            Builders.issuesSummary (Builders.runChecks fs root lm checks).1
              (Builders.runChecks fs root lm checks).2 ++
            Builders.issuesDetails (Builders.runChecks fs root lm checks).1 ++
            Builders.issuesFooter := by
        simp only [Builders.build_issues_md, if_neg hov]
      rw [hout]
      have h1 := count_words_append_le
        (Builders.issuesHeader fs root now ++
          Builders.issuesSummary (Builders.runChecks fs root lm checks).1
            (Builders.runChecks fs root lm checks).2 ++
          Builders.issuesDetails (Builders.runChecks fs root lm checks).1)
        Builders.issuesFooter
      have h2 := count_words_append_le
        (Builders.issuesHeader fs root now ++
          Builders.issuesSummary (Builders.runChecks fs root lm checks).1
            (Builders.runChecks fs root lm checks).2)
        (Builders.issuesDetails (Builders.runChecks fs root lm checks).1)
      have h3 := count_words_append_le (Builders.issuesHeader fs root now)
        (Builders.issuesSummary (Builders.runChecks fs root lm checks).1
          (Builders.runChecks fs root lm checks).2)
      rw [hbud] at *
      rw [Builders.MAX_WORDS_PER_FILE] at *
      omega

set_option maxRecDepth 40000 in
/-- Witness for the amended C1: a small subject on an empty snapshot and
the full registry on a one-file snapshot, both with nonnegative budgets. -/
theorem C1_amended_witness :
    (0 ≤ Builders.subjectBudget fsEmpty "2025-01-01 00:00:00" 1500 "sosroot" smallSubject ∧
      Utils.count_words
        (Builders.build_subject_md fsEmpty "2025-01-01 00:00:00" 1500 "sosroot" smallSubject) ≤
        Builders.MAX_WORDS_PER_FILE) ∧
    (0 ≤ Builders.issuesBudget fsFailedUnit "sosroot" "2025-01-01 00:00:00" 40000
        IssueChecks.ISSUE_CHECKS ∧
      Utils.count_words
        (Builders.build_issues_md fsFailedUnit "2025-01-01 00:00:00" 40000
          IssueChecks.ISSUE_CHECKS "sosroot") ≤
        Builders.MAX_WORDS_PER_FILE) := by
  have h1 : Utils.fileContrib fsEmpty "sosroot" "etc/hosts" = [] := rfl
  have hres : Utils.resolve_paths fsEmpty "sosroot" smallSubject.files smallSubject.globs = [] := by
    rw [resolve_paths_eq]
    rw [show smallSubject.files = ["etc/hosts"] from rfl,
      show smallSubject.globs = ([] : List String) from rfl]
    simp [h1]
  have hkept : Builders.subjectKept fsEmpty 1500 "sosroot" smallSubject = [] := by
    unfold Builders.subjectKept
    rw [hres]
    rfl
  have hbud1 : 0 ≤ Builders.subjectBudget fsEmpty "2025-01-01 00:00:00" 1500 "sosroot"
      smallSubject := by
    unfold Builders.subjectBudget
    rw [hkept]
    decide
  have hbud2 : 0 ≤ Builders.issuesBudget fsFailedUnit "sosroot" "2025-01-01 00:00:00" 40000
      IssueChecks.ISSUE_CHECKS := by
    decide
  exact ⟨⟨hbud1, C1_amended.1 fsEmpty "2025-01-01 00:00:00" 1500 "sosroot" smallSubject hbud1⟩,
    ⟨hbud2, C1_amended.2 fsFailedUnit "2025-01-01 00:00:00" 40000
      IssueChecks.ISSUE_CHECKS "sosroot" hbud2⟩⟩
